import Mathlib

/-!
A shallow embedding of gestion-solicitudes-frontend.

The React components of the repository are embedded as pure functions over
explicit state records.  Network calls and browser effects become values of
an effect type collected in a trace; the outcome of every network call is
supplied by an environment record.  JavaScript built-ins whose behaviour is
not part of the repository (`new Date(text)`, `String.prototype.toLowerCase`)
are fields of a platform record.
-/

namespace GestionSolicitudes

/-! ## Strings as JavaScript sees them -/

/-- Number of UTF-16 code units of one character, as counted by `String.length`
in JavaScript: characters outside the basic plane take two units. -/
def unidadesUtf16 (c : Char) : Nat :=
  if c.toNat < 65536 then 1 else 2

/-- The JavaScript `length` of a string (UTF-16 code units). -/
def jsLength (s : String) : Nat :=
  (s.data.map unidadesUtf16).sum

/-- Truthiness of a JavaScript string: only the empty string is falsy. -/
def esVerdadero (s : String) : Bool :=
  s != ""

/-- The ten decimal digits. -/
def esDigito (c : Char) : Bool :=
  "0123456789".data.contains c

/-- A string made of decimal digits only. -/
def soloDigitos (s : String) : Bool :=
  s.data.all esDigito

/-- Does `aguja` occur in `pajar` starting at its first position? -/
def empiezaCon : List Char → List Char → Bool
  | _, [] => true
  | [], _ :: _ => false
  | p :: ps, a :: as => p == a && empiezaCon ps as

/-- Search of `aguja` at every position of `pajar`, left to right. -/
def includesLista : List Char → List Char → Bool
  | [], aguja => empiezaCon [] aguja
  | p :: ps, aguja => empiezaCon (p :: ps) aguja || includesLista ps aguja

/-- The method `String.prototype.includes`. -/
def includes (pajar aguja : String) : Bool :=
  includesLista pajar.data aguja.data

/-! ## Regular expressions (the fragment used by `validators.jsx`) -/

/-- The shape of the regular expressions that occur in the source. -/
inductive Regex where
  /-- The assertion `^` (no multiline flag: start of input only). -/
  | inicio : Regex
  /-- The assertion `$` (no multiline flag: end of input only). -/
  | fin : Regex
  /-- A character class with one range, `[lo-hi]`. -/
  | rango (lo hi : Char) : Regex
  /-- Greedy bounded repetition `r{min,max}`. -/
  | repetir (r : Regex) (min max : Nat) : Regex
  /-- Concatenation. -/
  | seq (a b : Regex) : Regex

/-- Greedy bounded repetition of one matching step, with backtracking: try one
more iteration while the upper bound allows it, otherwise (or when that
fails) continue after the repetition if the lower bound has been reached. -/
def repetirPaso (paso : Nat → List Char → (Nat → List Char → Bool) → Bool) :
    Nat → Nat → Nat → List Char → (Nat → List Char → Bool) → Bool
  | min, 0, pos, resto, k => min == 0 && k pos resto
  | min, max + 1, pos, resto, k =>
    paso pos resto (fun pos2 resto2 => repetirPaso paso (min - 1) max pos2 resto2 k)
      || (min == 0 && k pos resto)

/-- Backtracking matcher in continuation style: `pos` is the number of
characters already consumed, `resto` the input still to be read, and `k` the
continuation applied once the expression has matched. -/
def Regex.coincide : Regex → Nat → List Char → (Nat → List Char → Bool) → Bool
  | .inicio, pos, resto, k => pos == 0 && k pos resto
  | .fin, pos, resto, k => resto.isEmpty && k pos resto
  | .rango lo hi, pos, resto, k =>
    match resto with
    | [] => false
    | c :: cs => lo.toNat ≤ c.toNat && c.toNat ≤ hi.toNat && k (pos + 1) cs
  | .repetir r min max, pos, resto, k =>
    repetirPaso (fun p s k2 => Regex.coincide r p s k2) min max pos resto k
  | .seq a b, pos, resto, k =>
    Regex.coincide a pos resto (fun p s => Regex.coincide b p s k)

/-- Search for a match starting at the current position or at any later one. -/
def Regex.buscar (r : Regex) : Nat → List Char → Bool
  | pos, [] => r.coincide pos [] (fun _ _ => true)
  | pos, c :: cs => r.coincide pos (c :: cs) (fun _ _ => true) || Regex.buscar r (pos + 1) cs

/-- The method `RegExp.prototype.test` of a regular expression without flags. -/
def Regex.test (r : Regex) (s : String) : Bool :=
  r.buscar 0 s.data

/-! ## `utils/validators.jsx` -/

/-- The literal `/^[0-9]{0,9}$/`. -/
def telefonoRegex : Regex :=
  .seq .inicio (.seq (.repetir (.rango '0' '9') 0 9) .fin)

/-- `validateTelefono` of `utils/validators.jsx`. -/
def validateTelefono (telefono : String) : Bool :=
  telefonoRegex.test telefono

/-! ## Data model -/

/-- A contact as held by the forms: the object `{nombreContacto, numeroContacto}`. -/
structure Contacto where
  nombreContacto : String
  numeroContacto : String
  deriving DecidableEq

/-- An entry of a lookup collection (brand or request type). -/
structure Opcion where
  id : Nat
  descripcion : String
  deriving DecidableEq

/-- The state `formData` of `RegistroSolicitud`.  `fechaEnvio` is the time
value of the selected `Date`, `none` when the picker holds no date. -/
structure FormData where
  marcaId : String
  tipoSolicitudId : String
  nombreContacto : String
  numeroContacto : String
  fechaEnvio : Option Int
  contactos : List Contacto
  deriving DecidableEq

/-- All `useState` cells of the component `RegistroSolicitud`. -/
structure Estado where
  formData : FormData
  marcas : List Opcion
  tiposSolicitud : List Opcion
  nuevoContacto : Contacto
  showModal : Bool
  deriving DecidableEq

/-- The initial state of `RegistroSolicitud`; `ahora` is the value of `new Date()`. -/
def estadoInicial (ahora : Int) : Estado :=
  { formData :=
      { marcaId := "", tipoSolicitudId := "", nombreContacto := "", numeroContacto := "",
        fechaEnvio := some ahora, contactos := [] }
    marcas := []
    tiposSolicitud := []
    nuevoContacto := { nombreContacto := "", numeroContacto := "" }
    showModal := false }

/-- A request as returned by the backend (untyped JSON: a field may be missing). -/
structure Solicitud where
  id : Nat
  codigo : String
  marcaDescripcion : Option String
  tipoSolicitudDescripcion : Option String
  fechaEnvio : Option String
  nombreContacto : String
  numeroContacto : String
  deriving DecidableEq

/-! ## Effects and the HTTP layer -/

/-- The body `{solicitudId, nombreContacto, numeroContacto}` built by `handleSubmit`;
`solicitudId` is `none` when the parent response carries no `id`. -/
structure ContactoNuevo where
  solicitudId : Option Nat
  nombreContacto : String
  numeroContacto : String
  deriving DecidableEq

/-- Bodies of the POST requests issued by the registration views. -/
inductive Cuerpo where
  | solicitud (datos : FormData) : Cuerpo
  | contactoDeSolicitud (datos : ContactoNuevo) : Cuerpo
  | contacto (datos : Contacto) : Cuerpo
  deriving DecidableEq

/-- Observable effects of a handler, in the order in which they are issued. -/
inductive Efecto where
  | preventDefault : Efecto
  | post (url : String) (cuerpo : Cuerpo) : Efecto
  | get (url : String) : Efecto
  | delete (url : String) : Efecto
  | alert (mensaje : String) : Efecto
  | navigate (ruta : String) : Efecto
  | consoleError (mensaje : String) : Efecto
  | consoleLog (mensaje : String) : Efecto
  | confirm (mensaje : String) : Efecto
  deriving DecidableEq

/-- `API_URL` of `services/solicitudService.jsx`. -/
def apiSolicitudes : String := "http://localhost:8081/solicitudes"

/-- `API_URL` of `services/contactoService.jsx`. -/
def apiContactos : String := "http://localhost:8081/contactos"

/-- The call issued by `registrarSolicitud`: `axios.post(API_URL, solicitud)`. -/
def registrarSolicitud (solicitud : FormData) : Efecto :=
  .post apiSolicitudes (.solicitud solicitud)

/-- The call issued by `registrarContacto` for a child of a request. -/
def registrarContacto (contacto : ContactoNuevo) : Efecto :=
  .post apiContactos (.contactoDeSolicitud contacto)

/-- The parsed body of the response to the parent create call. -/
structure CuerpoRespuesta where
  id : Option Nat
  deriving DecidableEq

/-- A resolved response; `data` is `none` when the body is falsy (empty). -/
structure Respuesta where
  data : Option CuerpoRespuesta
  deriving DecidableEq

/-- Outcomes of the network calls made by `handleSubmit` of `RegistroSolicitud`:
the parent create call, and the child create call issued at each position. -/
structure Entorno where
  solicitud : FormData → Except String Respuesta
  contacto : Nat → ContactoNuevo → Except String Unit

/-- What a handler leaves behind: the component state, the effects issued, and
whether the handler completed (`ok`) or let an error escape (`error`). -/
structure Salida where
  estado : Estado
  efectos : List Efecto
  resultado : Except String Unit

/-! ## `components/solicitud/RegistroSolicitud.jsx` -/

/-- The string-valued keys of `formData` that an input of the form can name. -/
inductive Campo where
  | marcaId | tipoSolicitudId | nombreContacto | numeroContacto
  deriving DecidableEq

/-- The update `{...prevData, [name]: value}`. -/
def FormData.asignar (prevData : FormData) (name : Campo) (value : String) : FormData :=
  match name with
  | .marcaId => { prevData with marcaId := value }
  | .tipoSolicitudId => { prevData with tipoSolicitudId := value }
  | .nombreContacto => { prevData with nombreContacto := value }
  | .numeroContacto => { prevData with numeroContacto := value }

/-- `handleChange`: stores the value under the key named by the input. -/
def handleChange (st : Estado) (name : Campo) (value : String) : Estado :=
  { st with formData := st.formData.asignar name value }

/-- `handleDateChange`: stores the date chosen in the picker. -/
def handleDateChange (st : Estado) (date : Option Int) : Estado :=
  { st with formData := { st.formData with fechaEnvio := date } }

/-- `handleAddContacto`: returns at once when the sub-form name or number is
falsy; otherwise appends the sub-form, resets it and hides the overlay. -/
def handleAddContacto (st : Estado) : Estado :=
  if !esVerdadero st.nuevoContacto.nombreContacto || !esVerdadero st.nuevoContacto.numeroContacto then
    st
  else
    { st with
      formData := { st.formData with contactos := st.formData.contactos ++ [st.nuevoContacto] }
      nuevoContacto := { nombreContacto := "", numeroContacto := "" }
      showModal := false }

/-- The callback form `array.filter((x, i) => p x i)`, positions counted from `desde`. -/
def filtrarConIndice {α : Type} (p : α → Nat → Bool) : Nat → List α → List α
  | _, [] => []
  | desde, x :: xs =>
    if p x desde then x :: filtrarConIndice p (desde + 1) xs
    else filtrarConIndice p (desde + 1) xs

/-- `handleRemoveContacto`: keeps the entries whose position differs from `index`. -/
def handleRemoveContacto (st : Estado) (index : Int) : Estado :=
  { st with
    formData :=
      { st.formData with
        contactos := filtrarConIndice (fun _ i => decide ((i : Int) ≠ index)) 0 st.formData.contactos } }

/-- `handleInputChange`: only the field `numeroContacto` is handled, and its
value is stored when it is at most 9 long and passes `validateTelefono`. -/
def handleInputChange (st : Estado) (name value : String) : Estado :=
  if name = "numeroContacto" then
    if jsLength value ≤ 9 && validateTelefono value then
      { st with formData := { st.formData with numeroContacto := value } }
    else st
  else st

/-- The bodies of the child create calls: `formData.contactos.map(...)`. -/
def cuerposContactos (solicitudId : Option Nat) (contactos : List Contacto) : List ContactoNuevo :=
  contactos.map (fun contacto =>
    { solicitudId := solicitudId
      nombreContacto := contacto.nombreContacto
      numeroContacto := contacto.numeroContacto })

/-- Outcome of `Promise.all` over calls already issued: it is fulfilled when
every call is fulfilled and rejected when some call is rejected.  The reason
kept is that of the rejected call of lowest position; the handler only logs
it, so the choice is not visible in the trace. -/
def promiseAll (contacto : Nat → ContactoNuevo → Except String Unit) :
    Nat → List ContactoNuevo → Except String Unit
  | _, [] => .ok ()
  | k, c :: cs =>
    match contacto k c, promiseAll contacto (k + 1) cs with
    | .ok _, .ok _ => .ok ()
    | .error e, _ => .error e
    | .ok _, .error e => .error e

/-- The `try` block of `handleSubmit`: the effects issued and whether the block
ran to its end or threw. -/
def handleSubmitIntento (env : Entorno) (formData : FormData) : List Efecto × Except String Unit :=
  match env.solicitud formData with
  | .error e => ([registrarSolicitud formData], .error e)
  | .ok response =>
    match response.data with
    | none => ([registrarSolicitud formData], .error "Error en la respuesta del servidor")
    | some data =>
      let solicitudId := data.id
      let cuerpos := cuerposContactos solicitudId formData.contactos
      let llamadas := cuerpos.map registrarContacto
      match promiseAll env.contacto 0 cuerpos with
      | .error e => (registrarSolicitud formData :: llamadas, .error e)
      | .ok _ =>
        (registrarSolicitud formData :: llamadas ++
          [.alert "Solicitud y contactos registrados con éxito", .navigate "/"], .ok ())

/-- `handleSubmit` of `RegistroSolicitud`: `preventDefault`, then the `try`
block, whose error is caught and written to the console. -/
def handleSubmit (env : Entorno) (st : Estado) : Salida :=
  match handleSubmitIntento env st.formData with
  | (efectos, .ok _) =>
    { estado := st, efectos := .preventDefault :: efectos, resultado := .ok () }
  | (efectos, .error _) =>
    { estado := st
      efectos := .preventDefault :: efectos ++
        [.consoleError "Error al registrar la solicitud y contactos:"]
      resultado := .ok () }

/-! ## `components/solicitud/ListaSolicitud.jsx` -/

/-- A `Date` object: its time value in milliseconds, `none` for an invalid date. -/
structure Fecha where
  valor : Option Int
  deriving DecidableEq

/-- The comparison `a >= b` of two `Date` objects (false when either is invalid). -/
def Fecha.mayorIgual (a b : Fecha) : Bool :=
  match a.valor, b.valor with
  | some x, some y => decide (y ≤ x)
  | _, _ => false

/-- The comparison `a <= b` of two `Date` objects (false when either is invalid). -/
def Fecha.menorIgual (a b : Fecha) : Bool :=
  match a.valor, b.valor with
  | some x, some y => decide (x ≤ y)
  | _, _ => false

/-- JavaScript built-ins used by the list view. -/
structure Plataforma where
  /-- The constructor `new Date(text)`. -/
  nuevaFecha : String → Fecha
  /-- The method `String.prototype.toLowerCase`. -/
  toLowerCase : String → String

/-- All `useState` cells of the component `ListaSolicitudes`. -/
structure EstadoLista where
  solicitudes : List Solicitud
  contactos : List Contacto
  showModal : Bool
  solicitudSeleccionada : Option String
  filtroFechaInicio : String
  filtroFechaFin : String
  filtroTipo : String
  deriving DecidableEq

/-- The expression `x ? new Date(x) : null` for a string that may be missing. -/
def fechaONull (P : Plataforma) (x : Option String) : Option Fecha :=
  match x with
  | none => none
  | some s => if esVerdadero s then some (P.nuevaFecha s) else none

/-- The expression `solicitud.tipoSolicitudDescripcion?.toLowerCase() || ''`. -/
def tipoEnMinusculas (P : Plataforma) (descripcion : Option String) : String :=
  match descripcion with
  | none => ""
  | some d => if esVerdadero (P.toLowerCase d) then P.toLowerCase d else ""

/-- The callback passed to `solicitudes.filter` when `solicitudesFiltradas` is built. -/
def pasaFiltro (P : Plataforma) (filtroFechaInicio filtroFechaFin filtroTipo : String)
    (solicitud : Solicitud) : Bool :=
  let fechaEnvio := fechaONull P solicitud.fechaEnvio
  let inicio := fechaONull P (some filtroFechaInicio)
  let fin := fechaONull P (some filtroFechaFin)
  let tipoSolicitud := tipoEnMinusculas P solicitud.tipoSolicitudDescripcion
  (match inicio with
    | none => true
    | some i => match fechaEnvio with
      | none => false
      | some f => f.mayorIgual i) &&
  (match fin with
    | none => true
    | some j => match fechaEnvio with
      | none => false
      | some f => f.menorIgual j) &&
  (!esVerdadero filtroTipo || includes tipoSolicitud (P.toLowerCase filtroTipo))

/-- The list `solicitudesFiltradas` computed on every render. -/
def solicitudesFiltradas (P : Plataforma) (st : EstadoLista) : List Solicitud :=
  st.solicitudes.filter (pasaFiltro P st.filtroFechaInicio st.filtroFechaFin st.filtroTipo)

/-! ## An instance of the platform -/

/-- Leap years of the Gregorian calendar. -/
def esBisiesto (y : Nat) : Bool :=
  (y % 4 == 0 && y % 100 != 0) || y % 400 == 0

/-- Number of days of month `m` (1 to 12) in year `y`; 0 for any other `m`. -/
def diasDelMes (y m : Nat) : Nat :=
  if m = 2 then (if esBisiesto y then 29 else 28)
  else if m = 4 ∨ m = 6 ∨ m = 9 ∨ m = 11 then 30
  else if 1 ≤ m ∧ m ≤ 12 then 31
  else 0

/-- Days from 1970-01-01 to the civil date `y-m-d` (proleptic Gregorian). -/
def diasDesdeEpoca (y m d : Nat) : Int :=
  let y2 : Int := if m ≤ 2 then (y : Int) - 1 else y
  let era : Int := y2 / 400
  let yoe : Int := y2 - era * 400
  let mp : Int := if m ≤ 2 then (m : Int) + 9 else (m : Int) - 3
  let doy : Int := (153 * mp + 2) / 5 + (d : Int) - 1
  let doe : Int := yoe * 365 + yoe / 4 - yoe / 100 + doy
  era * 146097 + doe - 719468

/-- The number written by a list of decimal digits, most significant first. -/
def valorDigitos (cs : List Char) : Option Nat :=
  if cs.all esDigito then some (cs.foldl (fun n c => 10 * n + (c.toNat - 48)) 0) else none

/-- `new Date(text)` on the date-only form `YYYY-MM-DD` (the value of an
`input type="date"`): midnight UTC of that day.  It agrees with the built-in
constructor on calendar dates written in that form only: any other text
(date-time text, day 30 or 31 of a shorter month) is treated here as an
invalid date, which the built-in constructor need not do. -/
def nuevaFechaIso (s : String) : Fecha :=
  match s.data with
  | [y1, y2, y3, y4, '-', m1, m2, '-', d1, d2] =>
    match valorDigitos [y1, y2, y3, y4], valorDigitos [m1, m2], valorDigitos [d1, d2] with
    | some y, some m, some d =>
      if 1 ≤ m ∧ m ≤ 12 ∧ 1 ≤ d ∧ d ≤ diasDelMes y m then
        { valor := some (diasDesdeEpoca y m d * 86400000) }
      else { valor := none }
    | _, _, _ => { valor := none }
  | _ => { valor := none }

/-- Lower-casing of the letters `A` to `Z`; every other character is kept.  It
agrees with `String.prototype.toLowerCase` on ASCII text only. -/
def minusculasAscii (s : String) : String :=
  String.mk (s.data.map Char.toLower)

/-- A platform that reads date-only ISO text and lower-cases ASCII letters. -/
def plataformaIso : Plataforma :=
  { nuevaFecha := nuevaFechaIso, toLowerCase := minusculasAscii }

/-! ## Reading aids for the statements -/

/-- Is the effect a create call for a request (a POST to the requests URL)? -/
def esCrearSolicitud : Efecto → Bool
  | .post url _ => url == apiSolicitudes
  | _ => false

/-- Is the effect a create call for a contact (a POST to the contacts URL)? -/
def esCrearContacto : Efecto → Bool
  | .post url _ => url == apiContactos
  | _ => false

/-- Is the effect a network call of any kind? -/
def esLlamadaHttp : Efecto → Bool
  | .post _ _ => true
  | .get _ => true
  | .delete _ => true
  | _ => false

/-- Is the effect a navigation? -/
def esNavegacion : Efecto → Bool
  | .navigate _ => true
  | _ => false

/-- A form with two pending contacts, used in the examples. -/
def estadoDosContactos : Estado :=
  { formData :=
      { marcaId := "3", tipoSolicitudId := "2", nombreContacto := "Ana", numeroContacto := "987654321",
        fechaEnvio := some 1718409600000,
        contactos := [{ nombreContacto := "Luis", numeroContacto := "911" },
                      { nombreContacto := "Eva", numeroContacto := "922" }] }
    marcas := [{ id := 3, descripcion := "Acme" }]
    tiposSolicitud := [{ id := 2, descripcion := "Garantia" }]
    nuevoContacto := { nombreContacto := "Rosa", numeroContacto := "" }
    showModal := true }

/-- The list view holding three requests and a date range, used in the examples. -/
def listaTresFechas : EstadoLista :=
  { solicitudes :=
      [{ id := 1, codigo := "S-001", marcaDescripcion := some "Acme",
         tipoSolicitudDescripcion := some "Reclamo", fechaEnvio := some "2024-01-01",
         nombreContacto := "Luis", numeroContacto := "911" },
       { id := 7, codigo := "S-007", marcaDescripcion := some "Acme",
         tipoSolicitudDescripcion := some "Garantia", fechaEnvio := some "2024-06-15",
         nombreContacto := "Ana", numeroContacto := "987654321" },
       { id := 9, codigo := "S-009", marcaDescripcion := none,
         tipoSolicitudDescripcion := none, fechaEnvio := some "2024-12-31",
         nombreContacto := "Eva", numeroContacto := "922" }]
    contactos := []
    showModal := false
    solicitudSeleccionada := none
    filtroFechaInicio := "2024-03-01"
    filtroFechaFin := "2024-09-01"
    filtroTipo := "" }

/-- An environment in which the parent call returns the identifier 41, the
child call at position 1 fails and every other child call succeeds. -/
def entornoFallaSegundo : Entorno :=
  { solicitud := fun _ => .ok { data := some { id := some 41 } }
    contacto := fun k _ => if k = 1 then .error "500" else .ok () }

/-- An environment in which every call succeeds and the parent call returns the
identifier 41. -/
def entornoExito : Entorno :=
  { solicitud := fun _ => .ok { data := some { id := some 41 } }
    contacto := fun _ _ => .ok () }

/-- An environment in which the parent call resolves with an empty body. -/
def entornoCuerpoVacio : Entorno :=
  { solicitud := fun _ => .ok { data := none }
    contacto := fun _ _ => .ok () }

/-- A request of the list view, used in the examples. -/
def solicitudJunio : Solicitud :=
  { id := 7, codigo := "S-007", marcaDescripcion := some "Acme",
    tipoSolicitudDescripcion := some "Garantia", fechaEnvio := some "2024-06-15",
    nombreContacto := "Ana", numeroContacto := "987654321" }



/-! ## `services/marcaService.jsx` and `services/tipoSolicitudService.jsx` -/

/-- `API_URL` of `services/marcaService.jsx`. -/
def apiMarca : String := "http://localhost:8081/marca"

/-- `API_URL` of `services/tipoSolicitudService.jsx`. -/
def apiTipoSolicitud : String := "http://localhost:8081/tipoSolicitud"

/-- A resolved response to the GET of a lookup collection; `data` is `none`
when the body is falsy. -/
structure RespuestaLista where
  data : Option (List Opcion)
  deriving DecidableEq

/-- The run of an `async` function: the calls issued when it is entered, the
effects of its continuation, and how its promise settles. -/
structure Promesa (α : Type) where
  llamadas : List Efecto
  alResolver : List Efecto
  resultado : Except String α

/-- `obtenerMarcas`: the body of the response, or the empty array when the GET
fails (the error is written to the console). -/
def obtenerMarcas (respuesta : Except String RespuestaLista) : Promesa (Option (List Opcion)) :=
  match respuesta with
  | .ok response =>
    { llamadas := [.get apiMarca], alResolver := [], resultado := .ok response.data }
  | .error _ =>
    { llamadas := [.get apiMarca]
      alResolver := [.consoleError "Error al obtener las marcas:"]
      resultado := .ok (some []) }

/-- `obtenerTipoSolicitudes`: the body of the response, or the empty array when
the GET fails (the error is written to the console). -/
def obtenerTipoSolicitudes (respuesta : Except String RespuestaLista) :
    Promesa (Option (List Opcion)) :=
  match respuesta with
  | .ok response =>
    { llamadas := [.get apiTipoSolicitud], alResolver := [], resultado := .ok response.data }
  | .error _ =>
    { llamadas := [.get apiTipoSolicitud]
      alResolver := [.consoleError "Error al obtener los tipos de solicitud:"]
      resultado := .ok (some []) }

/-- Outcomes of the two GET requests made when `RegistroSolicitud` is mounted. -/
structure EntornoCarga where
  marcas : Except String RespuestaLista
  tipos : Except String RespuestaLista

/-- The expression `x || []` for a collection that may be missing (an array,
even an empty one, is truthy). -/
def oVacia (x : Option (List Opcion)) : List Opcion :=
  match x with
  | some l => l
  | none => []

/-- `cargarDatos` of `RegistroSolicitud`: both services are called, then
`Promise.all` is awaited inside a `try`; the `catch` resets both collections. -/
def cargarDatos (env : EntornoCarga) (st : Estado) : Salida :=
  let pm := obtenerMarcas env.marcas
  let pt := obtenerTipoSolicitudes env.tipos
  match pm.resultado, pt.resultado with
  | .ok marcasRes, .ok tiposRes =>
    { estado := { st with marcas := oVacia marcasRes, tiposSolicitud := oVacia tiposRes }
      efectos := pm.llamadas ++ pt.llamadas ++ pm.alResolver ++ pt.alResolver
      resultado := .ok () }
  | _, _ =>
    { estado := { st with marcas := [], tiposSolicitud := [] }
      efectos := pm.llamadas ++ pt.llamadas ++ pm.alResolver ++ pt.alResolver ++
        [.consoleError "Error al obtener datos:"]
      resultado := .ok () }

/-! ## The handlers of `RegistroSolicitud` as they are wired to the form -/

/-- One user action on the mounted form, named after the element that raises it. -/
inductive Accion where
  /-- The select `marcaId`, `onChange={handleChange}`. -/
  | cambiarMarca (value : String) : Accion
  /-- The select `tipoSolicitudId`, `onChange={handleChange}`. -/
  | cambiarTipo (value : String) : Accion
  /-- The input `nombreContacto`, `onChange={handleChange}`. -/
  | cambiarNombre (value : String) : Accion
  /-- The input `numeroContacto`, `onChange={handleInputChange}`. -/
  | cambiarNumero (value : String) : Accion
  /-- The date picker, `onChange={handleDateChange}`. -/
  | cambiarFecha (date : Option Int) : Accion
  /-- The button that shows the overlay, `setShowModal(true)`. -/
  | abrirModal : Accion
  /-- Closing the overlay, `setShowModal(false)`. -/
  | cerrarModal : Accion
  /-- The name input of the overlay. -/
  | editarNuevoNombre (value : String) : Accion
  /-- The number input of the overlay. -/
  | editarNuevoNumero (value : String) : Accion
  /-- The button of the overlay, `onClick={handleAddContacto}`. -/
  | agregarContacto : Accion
  /-- The button of a pending contact, `handleRemoveContacto(index)`. -/
  | quitarContacto (index : Int) : Accion
  /-- The effect run on mount, `cargarDatos()`. -/
  | cargarDatos (env : EntornoCarga) : Accion
  /-- Submission of the form, `onSubmit={handleSubmit}`. -/
  | enviar (env : Entorno) : Accion

/-- The state after one action. -/
def aplicar (st : Estado) : Accion → Estado
  | .cambiarMarca value => handleChange st .marcaId value
  | .cambiarTipo value => handleChange st .tipoSolicitudId value
  | .cambiarNombre value => handleChange st .nombreContacto value
  | .cambiarNumero value => handleInputChange st "numeroContacto" value
  | .cambiarFecha date => handleDateChange st date
  | .abrirModal => { st with showModal := true }
  | .cerrarModal => { st with showModal := false }
  | .editarNuevoNombre value =>
    { st with nuevoContacto := { st.nuevoContacto with nombreContacto := value } }
  | .editarNuevoNumero value =>
    { st with nuevoContacto := { st.nuevoContacto with numeroContacto := value } }
  | .agregarContacto => handleAddContacto st
  | .quitarContacto index => handleRemoveContacto st index
  | .cargarDatos env => (cargarDatos env st).estado
  | .enviar env => (handleSubmit env st).estado

/-- The state reached from the initial one by a sequence of actions. -/
def alcanzado (ahora : Int) (acciones : List Accion) : Estado :=
  acciones.foldl aplicar (estadoInicial ahora)

/-- `handleInputChange` with the explicit length test left out, for comparison. -/
def handleInputChangeSinLongitud (st : Estado) (name value : String) : Estado :=
  if name = "numeroContacto" then
    if validateTelefono value then
      { st with formData := { st.formData with numeroContacto := value } }
    else st
  else st

/-! ## The delete action of `ListaSolicitud.jsx` -/

/-- What a handler of the list view leaves behind. -/
structure SalidaLista where
  estado : EstadoLista
  efectos : List Efecto
  resultado : Except String Unit

/-- The call issued by `eliminarSolicitud`: `axios.delete` of `API_URL/id`. -/
def eliminarSolicitud (id : Nat) : Efecto :=
  .delete (apiSolicitudes ++ "/" ++ toString id)

/-- The call issued by `obtenerSolicitudes`: `axios.get(API_URL)`. -/
def obtenerSolicitudes : Efecto :=
  .get apiSolicitudes

/-- `cargarSolicitudes`: the GET is issued and the handler goes on without
waiting for it. -/
def cargarSolicitudes : List Efecto :=
  [obtenerSolicitudes]

/-- The callbacks attached by `cargarSolicitudes`, run when its GET settles:
`then` stores the body, `catch` writes the error to the console. -/
def recibirSolicitudes (st : EstadoLista) (respuesta : Except String (List Solicitud)) :
    SalidaLista :=
  match respuesta with
  | .ok data => { estado := { st with solicitudes := data }, efectos := [], resultado := .ok () }
  | .error _ =>
    { estado := st
      efectos := [.consoleError "Error al obtener las solicitudes:"]
      resultado := .ok () }

/-- `handleDeleteSolicitud`: `confirmado` is the answer to `window.confirm` and
`borrado` the outcome of the delete call. -/
def handleDeleteSolicitud (confirmado : Bool) (borrado : Except String Unit)
    (st : EstadoLista) (solicitudId : Nat) : SalidaLista :=
  if confirmado then
    match borrado with
    | .ok _ =>
      { estado := st
        efectos := [.confirm "¿Estás seguro de que deseas eliminar esta solicitud?",
          eliminarSolicitud solicitudId, .alert "Solicitud eliminada correctamente"] ++
          cargarSolicitudes
        resultado := .ok () }
    | .error _ =>
      { estado := st
        efectos := [.confirm "¿Estás seguro de que deseas eliminar esta solicitud?",
          eliminarSolicitud solicitudId, .consoleError "Error al eliminar la solicitud:"]
        resultado := .ok () }
  else
    { estado := st
      efectos := [.confirm "¿Estás seguro de que deseas eliminar esta solicitud?"]
      resultado := .ok () }

/-! ## `components/contacto/RegistroContacto.jsx` -/

/-- What `handleSubmit` of `RegistroContacto` leaves behind: the form state
`contacto`, the effects, and how the handler ended. -/
structure SalidaContacto where
  contacto : Contacto
  efectos : List Efecto
  resultado : Except String Unit

/-- `handleSubmit` of `RegistroContacto`; `respuesta` is the outcome of the
create call. -/
def RegistroContacto.handleSubmit (respuesta : Except String Unit) (contacto : Contacto) :
    SalidaContacto :=
  match respuesta with
  | .ok _ =>
    { contacto := { nombreContacto := "", numeroContacto := "" }
      efectos := [.preventDefault, .post apiContactos (.contacto contacto),
        .consoleLog "Contacto registrado:"]
      resultado := .ok () }
  | .error _ =>
    { contacto := contacto
      efectos := [.preventDefault, .post apiContactos (.contacto contacto),
        .consoleError "Error al registrar el contacto:"]
      resultado := .ok () }

/-! ## Calendar dates -/

/-- Is `y-m-d` a date of the calendar? -/
def fechaValida (y m d : Nat) : Bool :=
  decide (1 ≤ m) && decide (m ≤ 12) && decide (1 ≤ d) && decide (d ≤ diasDelMes y m)

/-- The calendar date written as one number, such as 20240615: dates are in
calendar order exactly when these numbers are in order. -/
def claveFecha (y m d : Nat) : Nat :=
  y * 10000 + m * 100 + d

/-- The year, month and day written by a date-only text `YYYY-MM-DD`. -/
def leerFechaIso (s : String) : Option (Nat × Nat × Nat) :=
  match s.data with
  | [y1, y2, y3, y4, '-', m1, m2, '-', d1, d2] =>
    match valorDigitos [y1, y2, y3, y4], valorDigitos [m1, m2], valorDigitos [d1, d2] with
    | some y, some m, some d => if fechaValida y m d then some (y, m, d) else none
    | _, _, _ => none
  | _ => none

/-! ## More reading aids -/

/-- The mount of the form when the brand request fails and the request-type
request returns one entry. -/
def entornoFallaMarcas : EntornoCarga :=
  { marcas := .error "Network Error"
    tipos := .ok { data := some [{ id := 2, descripcion := "Garantia" }] } }

/-- Is the effect a delete call? -/
def esBorrado : Efecto → Bool
  | .delete _ => true
  | _ => false

/-- Is the effect a GET of the collection of requests (the re-fetch)? -/
def esRecarga : Efecto → Bool
  | .get url => url == apiSolicitudes
  | _ => false

/-! ## The phone validator -/

theorem esDigito_iff_rango (c : Char) :
    esDigito c = true ↔ ('0'.toNat ≤ c.toNat ∧ c.toNat ≤ '9'.toNat) := by
  constructor
  · intro h
    simp [esDigito] at h
    rcases h with h | h | h | h | h | h | h | h | h | h <;> subst h <;> decide
  · rintro ⟨h1, h2⟩
    have h1' : 48 ≤ c.toNat := h1
    have h2' : c.toNat ≤ 57 := h2
    have hc : c = Char.ofNat c.toNat := by simp
    rw [hc]
    generalize c.toNat = n at h1' h2'
    interval_cases n <;> decide

/-- The repetition `[0-9]{0,max}` followed by `$` succeeds exactly on inputs
of at most `max` characters, all of them digits. -/
theorem repetir_digitos_fin (max : Nat) :
    ∀ (pos : Nat) (resto : List Char),
      repetirPaso (fun p s k2 => Regex.coincide (.rango '0' '9') p s k2) 0 max pos resto
          (fun p s => Regex.coincide .fin p s (fun _ _ => true)) = true
        ↔ (resto.length ≤ max ∧ resto.all esDigito = true) := by
  induction max with
  | zero =>
    intro pos resto
    cases resto <;> simp [repetirPaso, Regex.coincide]
  | succ n ih =>
    intro pos resto
    cases resto with
    | nil => simp [repetirPaso, Regex.coincide]
    | cons c cs =>
      have hih := ih (pos + 1) cs
      simp only [Regex.coincide] at hih
      simp only [repetirPaso, Regex.coincide, Nat.zero_sub, List.isEmpty_cons, Bool.false_and,
        Bool.and_false, Bool.or_false, Bool.and_eq_true, decide_eq_true_eq, List.length_cons,
        Nat.add_le_add_iff_right, List.all_cons]
      rw [hih, esDigito_iff_rango]
      tauto

/-- The anchor `^` fails at every position after the first. -/
theorem telefonoRegex_buscar_despues (resto : List Char) :
    ∀ pos : Nat, telefonoRegex.buscar (pos + 1) resto = false := by
  induction resto with
  | nil => intro pos; simp [Regex.buscar, telefonoRegex, Regex.coincide]
  | cons c cs ih =>
    intro pos
    rw [Regex.buscar, ih]
    simp [telefonoRegex, Regex.coincide]

/-- The validator accepts exactly the strings of at most nine digits. -/
theorem validateTelefono_iff (t : String) :
    validateTelefono t = true ↔ (t.data.length ≤ 9 ∧ soloDigitos t = true) := by
  have h := repetir_digitos_fin 9 0 t.data
  unfold validateTelefono Regex.test soloDigitos
  cases hd : t.data with
  | nil =>
    rw [hd] at h
    simp only [Regex.buscar, telefonoRegex, Regex.coincide, beq_self_eq_true, Bool.true_and]
    exact h
  | cons c cs =>
    rw [hd] at h
    simp only [Regex.buscar, telefonoRegex, Regex.coincide, beq_self_eq_true, Bool.true_and,
      telefonoRegex_buscar_despues, Bool.or_false]
    have h2 := telefonoRegex_buscar_despues cs 0
    simp only [telefonoRegex, Nat.zero_add] at h2
    simp only [Nat.zero_add, h2, Bool.or_false]
    exact h

/-- A digit is one UTF-16 code unit. -/
theorem unidadesUtf16_digito (c : Char) (h : esDigito c = true) : unidadesUtf16 c = 1 := by
  rw [esDigito_iff_rango] at h
  have h2 : c.toNat ≤ 57 := h.2
  unfold unidadesUtf16
  rw [if_pos (by omega)]

/-- On a list of digits the JavaScript length is the number of characters. -/
theorem suma_unidades_digitos (l : List Char) (h : l.all esDigito = true) :
    (l.map unidadesUtf16).sum = l.length := by
  induction l with
  | nil => rfl
  | cons c cs ih =>
    simp only [List.all_cons, Bool.and_eq_true] at h
    simp only [List.map_cons, List.sum_cons, List.length_cons, ih h.2, unidadesUtf16_digito c h.1]
    omega

/-- Every character counts for at least one code unit. -/
theorem length_le_suma_unidades (l : List Char) : l.length ≤ (l.map unidadesUtf16).sum := by
  induction l with
  | nil => simp
  | cons c cs ih =>
    simp only [List.map_cons, List.sum_cons, List.length_cons]
    have : 1 ≤ unidadesUtf16 c := by unfold unidadesUtf16; split <;> omega
    omega

/-- The validator in terms of the JavaScript length. -/
theorem validateTelefono_iff_jsLength (t : String) :
    validateTelefono t = true ↔ (jsLength t ≤ 9 ∧ soloDigitos t = true) := by
  rw [validateTelefono_iff]
  unfold jsLength soloDigitos
  constructor
  · rintro ⟨h1, h2⟩
    exact ⟨by rw [suma_unidades_digitos _ h2]; exact h1, h2⟩
  · rintro ⟨h1, h2⟩
    exact ⟨le_trans (length_le_suma_unidades _) h1, h2⟩

/-- C7: for every string `t`, `validateTelefono t` is true exactly when `t` is made of
the digits 0-9 only and is at most 9 long (the empty string included), and false
in every other case, such as a letter, a space, a sign, a trailing newline or
a tenth digit. -/
theorem validateTelefono_spec (t : String) :
    (validateTelefono t = true ↔ (soloDigitos t = true ∧ jsLength t ≤ 9)) ∧
    (validateTelefono t = false ↔ ¬ (soloDigitos t = true ∧ jsLength t ≤ 9)) ∧
    (soloDigitos t = true ↔ ∀ c ∈ t.data, c ∈ ['0', '1', '2', '3', '4', '5', '6', '7', '8', '9']) ∧
    validateTelefono "" = true ∧ validateTelefono "123456789" = true ∧
    validateTelefono "12a45" = false ∧ validateTelefono "12 45" = false ∧
    validateTelefono "+1234" = false ∧ validateTelefono "12345\n" = false ∧
    validateTelefono "1234567890" = false := by
  have h := validateTelefono_iff_jsLength t
  refine ⟨?_, ?_, ?_, by decide, by decide, by decide, by decide, by decide, by decide, by decide⟩
  · rw [h]; tauto
  · rw [and_comm, ← h]; cases validateTelefono t <;> simp
  · simp [soloDigitos, esDigito]

/-! ## The phone field of the registration form -/

/-- C6: a change event of the field `numeroContacto` with value `v` stores `v` in
`formData.numeroContacto` when `v` is at most 9 long and matches `^[0-9]{0,9}$`,
which is to say when it is made of at most nine digits; otherwise the whole
state is unchanged.  "12345" is stored, "12a45" and "1234567890" are dropped. -/
theorem handleInputChange_numeroContacto (st : Estado) (v : String) :
    handleInputChange st "numeroContacto" v =
      (if jsLength v ≤ 9 ∧ telefonoRegex.test v = true then
        { st with formData := { st.formData with numeroContacto := v } }
      else st) ∧
    ((jsLength v ≤ 9 ∧ telefonoRegex.test v = true) ↔ (jsLength v ≤ 9 ∧ soloDigitos v = true)) ∧
    handleInputChange st "numeroContacto" "12345" =
      { st with formData := { st.formData with numeroContacto := "12345" } } ∧
    handleInputChange st "numeroContacto" "12a45" = st ∧
    handleInputChange st "numeroContacto" "1234567890" = st := by
  have hdef : ∀ w : String, handleInputChange st "numeroContacto" w =
      (if jsLength w ≤ 9 ∧ telefonoRegex.test w = true then
        { st with formData := { st.formData with numeroContacto := w } }
      else st) := by
    intro w
    simp only [handleInputChange, validateTelefono, Bool.and_eq_true, decide_eq_true_eq, if_true]
  refine ⟨hdef v, ?_, ?_, ?_, ?_⟩
  · have h := validateTelefono_iff_jsLength v
    unfold validateTelefono at h
    rw [h]; tauto
  · rw [hdef, if_pos (by decide)]
  · rw [hdef, if_neg (by decide)]
  · rw [hdef, if_neg (by decide)]

/-! ## The filter of the list view -/

theorem empiezaCon_iff (pajar aguja : List Char) :
    empiezaCon pajar aguja = true ↔ aguja <+: pajar := by
  induction pajar generalizing aguja with
  | nil => cases aguja <;> simp [empiezaCon]
  | cons p ps ih =>
    cases aguja with
    | nil => simp [empiezaCon]
    | cons a as =>
      simp only [empiezaCon, Bool.and_eq_true, beq_iff_eq, ih, List.cons_prefix_cons]
      constructor
      · rintro ⟨h1, h2⟩; exact ⟨h1.symm, h2⟩
      · rintro ⟨h1, h2⟩; exact ⟨h1.symm, h2⟩

/-- The search of `includes` finds the needle exactly when it is a contiguous
part of the haystack. -/
theorem includesLista_iff (pajar aguja : List Char) :
    includesLista pajar aguja = true ↔ aguja <:+: pajar := by
  induction pajar with
  | nil =>
    simp only [includesLista, empiezaCon_iff, List.prefix_nil, List.infix_nil]
  | cons p ps ih =>
    simp only [includesLista, Bool.or_eq_true, empiezaCon_iff, ih, List.infix_cons_iff]

theorem esVerdadero_iff (s : String) : esVerdadero s = true ↔ s ≠ "" := by
  simp [esVerdadero]

theorem mayorIgual_iff (a b : Fecha) :
    a.mayorIgual b = true ↔ ∃ x y, a.valor = some x ∧ b.valor = some y ∧ y ≤ x := by
  unfold Fecha.mayorIgual
  cases a.valor <;> cases b.valor <;> simp

theorem menorIgual_iff (a b : Fecha) :
    a.menorIgual b = true ↔ ∃ x y, a.valor = some x ∧ b.valor = some y ∧ x ≤ y := by
  unfold Fecha.menorIgual
  cases a.valor <;> cases b.valor <;> simp

/-- With every filter empty the callback keeps every request. -/
theorem pasaFiltro_sin_filtros (P : Plataforma) (s : Solicitud) :
    pasaFiltro P "" "" "" s = true := by
  simp [pasaFiltro, fechaONull, esVerdadero]

/-- C1: for a request with a submission date `d` and any filter values, the callback
that builds `solicitudesFiltradas` keeps the request exactly when (a) the start
filter is empty or the date is at or after the start date, (b) the end filter
is empty or the date is at or before the end date, and (c) the type filter is
empty or the lower-cased type description (the empty string when it is
missing) contains the lower-cased filter text.  With the three filters empty
the filtered list is the whole collection. -/
theorem pasaFiltro_spec (P : Plataforma) (st : EstadoLista) (s : Solicitud) (d : String)
    (hd : s.fechaEnvio = some d) (hne : d ≠ "") :
    (pasaFiltro P st.filtroFechaInicio st.filtroFechaFin st.filtroTipo s = true ↔
      ((st.filtroFechaInicio = "" ∨
          ∃ x y, (P.nuevaFecha d).valor = some x ∧
            (P.nuevaFecha st.filtroFechaInicio).valor = some y ∧ y ≤ x) ∧
       (st.filtroFechaFin = "" ∨
          ∃ x y, (P.nuevaFecha d).valor = some x ∧
            (P.nuevaFecha st.filtroFechaFin).valor = some y ∧ x ≤ y) ∧
       (st.filtroTipo = "" ∨
          (P.toLowerCase st.filtroTipo).data <:+:
            ((s.tipoSolicitudDescripcion.map P.toLowerCase).getD "").data))) ∧
    (s ∈ solicitudesFiltradas P st ↔
      (s ∈ st.solicitudes ∧
        pasaFiltro P st.filtroFechaInicio st.filtroFechaFin st.filtroTipo s = true)) ∧
    solicitudesFiltradas P
      { st with filtroFechaInicio := "", filtroFechaFin := "", filtroTipo := "" } =
        st.solicitudes := by
  refine ⟨?_, ?_, ?_⟩
  · have htipo : tipoEnMinusculas P s.tipoSolicitudDescripcion =
        (s.tipoSolicitudDescripcion.map P.toLowerCase).getD "" := by
      unfold tipoEnMinusculas
      cases s.tipoSolicitudDescripcion with
      | none => rfl
      | some t =>
        by_cases ht : P.toLowerCase t = "" <;> simp [esVerdadero, ht]
    have hfecha : fechaONull P s.fechaEnvio = some (P.nuevaFecha d) := by
      simp [fechaONull, hd, esVerdadero, hne]
    unfold pasaFiltro
    simp only [hfecha, htipo, Bool.and_eq_true, Bool.or_eq_true, Bool.not_eq_true']
    have ha : ∀ f : String, ∀ g : Fecha → Fecha → Bool,
        (match fechaONull P (some f) with
          | none => true
          | some i => g (P.nuevaFecha d) i) = true ↔ (f = "" ∨ g (P.nuevaFecha d) (P.nuevaFecha f) = true) := by
      intro f g
      by_cases hf : f = "" <;> simp [fechaONull, esVerdadero, hf]
    rw [ha st.filtroFechaInicio Fecha.mayorIgual, ha st.filtroFechaFin Fecha.menorIgual,
      mayorIgual_iff, menorIgual_iff]
    have hc : esVerdadero st.filtroTipo = false ↔ st.filtroTipo = "" := by
      simp [esVerdadero]
    rw [hc]
    unfold includes
    rw [includesLista_iff]
    tauto
  · simp [solicitudesFiltradas, List.mem_filter]
  · simp only [solicitudesFiltradas]
    rw [List.filter_eq_self]
    intro a _
    exact pasaFiltro_sin_filtros P a

/-- The statement of C1 applied to the June request of the example list. -/
theorem pasaFiltro_spec_witness :
    (solicitudJunio.fechaEnvio = some "2024-06-15" ∧ "2024-06-15" ≠ "") ∧
    (solicitudJunio ∈ solicitudesFiltradas plataformaIso listaTresFechas ↔
      (solicitudJunio ∈ listaTresFechas.solicitudes ∧
        pasaFiltro plataformaIso listaTresFechas.filtroFechaInicio
          listaTresFechas.filtroFechaFin listaTresFechas.filtroTipo solicitudJunio = true)) :=
  ⟨⟨rfl, by decide⟩,
    (pasaFiltro_spec plataformaIso listaTresFechas solicitudJunio "2024-06-15" rfl (by decide)).2.1⟩

/-! ## The pending contacts of the registration form -/

/-- C8: when the sub-form name or the sub-form number is the empty string,
`handleAddContacto` changes nothing: the pending list, the sub-form, the
overlay flag and every other field keep their values. -/
theorem handleAddContacto_vacio (st : Estado)
    (h : st.nuevoContacto.nombreContacto = "" ∨ st.nuevoContacto.numeroContacto = "") :
    handleAddContacto st = st ∧
    (handleAddContacto st).formData.contactos = st.formData.contactos ∧
    (handleAddContacto st).nuevoContacto = st.nuevoContacto ∧
    (handleAddContacto st).showModal = st.showModal := by
  have h1 : handleAddContacto st = st := by
    unfold handleAddContacto
    rcases h with h | h <;> simp [esVerdadero, h]
  rw [h1]
  exact ⟨rfl, rfl, rfl, rfl⟩

/-- The statement of C8 on a form whose overlay is open and whose sub-form has
a name but no number. -/
theorem handleAddContacto_vacio_witness :
    (estadoDosContactos.nuevoContacto.nombreContacto = "" ∨
      estadoDosContactos.nuevoContacto.numeroContacto = "") ∧
    handleAddContacto estadoDosContactos = estadoDosContactos ∧
    (handleAddContacto estadoDosContactos).showModal = true :=
  ⟨Or.inr rfl,
    (handleAddContacto_vacio estadoDosContactos (Or.inr rfl)).1,
    (handleAddContacto_vacio estadoDosContactos (Or.inr rfl)).2.2.2⟩

/-- C9: when the sub-form name and number are both non-empty, `handleAddContacto`
appends the sub-form contact at the end of the pending list (one more entry,
the earlier ones at their positions), clears the sub-form, closes the overlay
and leaves every other field as it was. -/
theorem handleAddContacto_agrega (st : Estado)
    (hnombre : st.nuevoContacto.nombreContacto ≠ "")
    (hnumero : st.nuevoContacto.numeroContacto ≠ "") :
    handleAddContacto st =
      { st with
        formData := { st.formData with contactos := st.formData.contactos ++ [st.nuevoContacto] }
        nuevoContacto := { nombreContacto := "", numeroContacto := "" }
        showModal := false } ∧
    (handleAddContacto st).formData.contactos.length = st.formData.contactos.length + 1 ∧
    (∀ i, i < st.formData.contactos.length →
      (handleAddContacto st).formData.contactos[i]? = st.formData.contactos[i]?) ∧
    (handleAddContacto st).formData.contactos[st.formData.contactos.length]? =
      some st.nuevoContacto ∧
    (handleAddContacto st).nuevoContacto = { nombreContacto := "", numeroContacto := "" } ∧
    (handleAddContacto st).showModal = false ∧
    (handleAddContacto st).formData.marcaId = st.formData.marcaId ∧
    (handleAddContacto st).formData.tipoSolicitudId = st.formData.tipoSolicitudId ∧
    (handleAddContacto st).formData.nombreContacto = st.formData.nombreContacto ∧
    (handleAddContacto st).formData.numeroContacto = st.formData.numeroContacto ∧
    (handleAddContacto st).formData.fechaEnvio = st.formData.fechaEnvio ∧
    (handleAddContacto st).marcas = st.marcas ∧
    (handleAddContacto st).tiposSolicitud = st.tiposSolicitud := by
  have h1 : handleAddContacto st =
      { st with
        formData := { st.formData with contactos := st.formData.contactos ++ [st.nuevoContacto] }
        nuevoContacto := { nombreContacto := "", numeroContacto := "" }
        showModal := false } := by
    unfold handleAddContacto
    simp [esVerdadero, hnombre, hnumero]
  rw [h1]
  refine ⟨rfl, by simp, ?_, by simp, rfl, rfl, rfl, rfl, rfl, rfl, rfl, rfl, rfl⟩
  intro i hi
  simp [List.getElem?_append_left hi]

/-- The statement of C9 on the example form once a number has been typed in
the sub-form. -/
theorem handleAddContacto_agrega_witness :
    ({ estadoDosContactos with
        nuevoContacto := { nombreContacto := "Rosa", numeroContacto := "933" } } : Estado
      ).nuevoContacto.nombreContacto ≠ "" ∧
    (handleAddContacto { estadoDosContactos with
        nuevoContacto := { nombreContacto := "Rosa", numeroContacto := "933" } }
      ).formData.contactos.length = 3 :=
  ⟨by decide,
    (handleAddContacto_agrega
      { estadoDosContactos with
        nuevoContacto := { nombreContacto := "Rosa", numeroContacto := "933" } }
      (by decide) (by decide)).2.1⟩

/-- Positions are counted from `desde`: an index below it is never met, so
nothing is removed. -/
theorem filtrarConIndice_fuera {α : Type} (index : Int) (l : List α) :
    ∀ desde : Nat, index < (desde : Int) →
      filtrarConIndice (fun _ i => decide ((i : Int) ≠ index)) desde l = l := by
  induction l with
  | nil => intro desde _; rfl
  | cons x xs ih =>
    intro desde h
    have hne : (desde : Int) ≠ index := by omega
    simp only [filtrarConIndice, hne, ne_eq, not_false_eq_true, decide_True, if_true]
    rw [ih (desde + 1) (by push_cast; omega)]

/-- Removing the position `desde + k` of a list whose positions start at `desde`
leaves the first `k` entries followed by the entries after the `k`-th. -/
theorem filtrarConIndice_dentro {α : Type} (l : List α) :
    ∀ (desde k : Nat), k < l.length →
      filtrarConIndice (fun _ i => decide ((i : Int) ≠ ((desde + k : Nat) : Int))) desde l =
        l.take k ++ l.drop (k + 1) := by
  induction l with
  | nil => intro desde k h; simp at h
  | cons x xs ih =>
    intro desde k h
    cases k with
    | zero =>
      simp only [filtrarConIndice, Nat.add_zero, ne_eq, not_true_eq_false, decide_False,
        Bool.false_eq_true, if_false, List.take_zero, List.nil_append, Nat.zero_add,
        List.drop_succ_cons, List.drop_zero]
      exact filtrarConIndice_fuera _ xs (desde + 1) (by push_cast; omega)
    | succ j =>
      have hne : ((desde : Nat) : Int) ≠ ((desde + (j + 1) : Nat) : Int) := by
        push_cast; omega
      have hj : j < xs.length := by simpa using h
      have hidx : desde + (j + 1) = (desde + 1) + j := by omega
      simp only [filtrarConIndice, hne, ne_eq, not_false_eq_true, decide_True, if_true,
        List.take_succ_cons, List.cons_append, List.drop_succ_cons]
      rw [hidx, ih (desde + 1) j hj]

/-- C10: for a pending list of length `n` and a valid index `0 ≤ index < n`,
`handleRemoveContacto index` removes the entry at that position and no other:
the new list is the entries before the position followed by the entries after
it, it has `n - 1` entries, and every other field is unchanged. -/
theorem handleRemoveContacto_valido (st : Estado) (index : Int)
    (h0 : 0 ≤ index) (hn : index < (st.formData.contactos.length : Int)) :
    handleRemoveContacto st index =
      { st with
        formData :=
          { st.formData with
            contactos := st.formData.contactos.take index.toNat ++
              st.formData.contactos.drop (index.toNat + 1) } } ∧
    (handleRemoveContacto st index).formData.contactos =
      st.formData.contactos.eraseIdx index.toNat ∧
    (handleRemoveContacto st index).formData.contactos.length =
      st.formData.contactos.length - 1 ∧
    (handleRemoveContacto st index).formData.marcaId = st.formData.marcaId ∧
    (handleRemoveContacto st index).formData.tipoSolicitudId = st.formData.tipoSolicitudId ∧
    (handleRemoveContacto st index).formData.nombreContacto = st.formData.nombreContacto ∧
    (handleRemoveContacto st index).formData.numeroContacto = st.formData.numeroContacto ∧
    (handleRemoveContacto st index).formData.fechaEnvio = st.formData.fechaEnvio ∧
    (handleRemoveContacto st index).marcas = st.marcas ∧
    (handleRemoveContacto st index).tiposSolicitud = st.tiposSolicitud ∧
    (handleRemoveContacto st index).nuevoContacto = st.nuevoContacto ∧
    (handleRemoveContacto st index).showModal = st.showModal := by
  have hk : index.toNat < st.formData.contactos.length := by omega
  have hidx : index = ((0 + index.toNat : Nat) : Int) := by
    rw [Nat.zero_add]; exact (Int.toNat_of_nonneg h0).symm
  have hlista : filtrarConIndice (fun _ i => decide ((i : Int) ≠ index)) 0 st.formData.contactos =
      st.formData.contactos.take index.toNat ++ st.formData.contactos.drop (index.toNat + 1) := by
    have h := filtrarConIndice_dentro st.formData.contactos 0 index.toNat hk
    rw [← hidx] at h
    exact h
  have h1 : handleRemoveContacto st index =
      { st with
        formData :=
          { st.formData with
            contactos := st.formData.contactos.take index.toNat ++
              st.formData.contactos.drop (index.toNat + 1) } } := by
    unfold handleRemoveContacto
    rw [hlista]
  rw [h1]
  refine ⟨rfl, ?_, ?_, rfl, rfl, rfl, rfl, rfl, rfl, rfl, rfl, rfl⟩
  · exact (List.eraseIdx_eq_take_drop_succ _ _).symm
  · simp only [List.length_append, List.length_take, List.length_drop]
    omega

/-- The statement of C10 on the example form: removing position 0 of the two
pending contacts leaves the second one. -/
theorem handleRemoveContacto_valido_witness :
    ((0 : Int) ≤ 0 ∧ (0 : Int) < (estadoDosContactos.formData.contactos.length : Int)) ∧
    (handleRemoveContacto estadoDosContactos 0).formData.contactos =
      [{ nombreContacto := "Eva", numeroContacto := "922" }] :=
  ⟨⟨by decide, by decide⟩,
    (handleRemoveContacto_valido estadoDosContactos 0 (by decide) (by decide)).2.1⟩

/-! ## Submission of the registration form -/

theorem promiseAll_ok (contacto : Nat → ContactoNuevo → Except String Unit)
    (cs : List ContactoNuevo) :
    ∀ k : Nat, (∀ j (hj : j < cs.length), contacto (k + j) (cs.get ⟨j, hj⟩) = .ok ()) →
      promiseAll contacto k cs = .ok () := by
  induction cs with
  | nil => intro k _; rfl
  | cons c cs ih =>
    intro k h
    have h0 := h 0 (by simp)
    simp only [Nat.add_zero, List.get_eq_getElem, List.getElem_cons_zero] at h0
    have hrest : promiseAll contacto (k + 1) cs = .ok () := by
      apply ih
      intro j hj
      have := h (j + 1) (by simpa using hj)
      simpa [Nat.add_assoc, Nat.add_comm 1 j] using this
    simp only [promiseAll, h0, hrest]

theorem promiseAll_error (contacto : Nat → ContactoNuevo → Except String Unit)
    (cs : List ContactoNuevo) :
    ∀ k : Nat, (∃ j, ∃ hj : j < cs.length, ∃ e, contacto (k + j) (cs.get ⟨j, hj⟩) = .error e) →
      ∃ e, promiseAll contacto k cs = .error e := by
  induction cs with
  | nil => rintro k ⟨j, hj, _⟩; simp at hj
  | cons c cs ih =>
    rintro k ⟨j, hj, e, he⟩
    cases hc : contacto k c with
    | error e2 => exact ⟨e2, by simp only [promiseAll, hc]⟩
    | ok u =>
      cases j with
      | zero =>
        simp only [Nat.add_zero, List.get_eq_getElem, List.getElem_cons_zero] at he
        rw [hc] at he
        cases he
      | succ i =>
        have hi : i < cs.length := by simpa using hj
        have he2 : contacto (k + 1 + i) (cs.get ⟨i, hi⟩) = .error e := by
          simpa [Nat.add_assoc, Nat.add_comm 1 i] using he
        obtain ⟨e3, h3⟩ := ih (k + 1) ⟨i, hi, e, he2⟩
        exact ⟨e3, by simp only [promiseAll, hc, h3]⟩

theorem filter_esCrearContacto_llamadas (cs : List ContactoNuevo) :
    (cs.map registrarContacto).filter esCrearContacto = cs.map registrarContacto := by
  rw [List.filter_eq_self]
  intro a ha
  obtain ⟨c, _, rfl⟩ := List.mem_map.1 ha
  simp [registrarContacto, esCrearContacto]

theorem filter_esCrearSolicitud_llamadas (cs : List ContactoNuevo) :
    (cs.map registrarContacto).filter esCrearSolicitud = [] := by
  rw [List.filter_eq_nil_iff]
  intro a ha
  obtain ⟨c, _, rfl⟩ := List.mem_map.1 ha
  simp only [registrarContacto, esCrearSolicitud, beq_iff_eq]
  decide

theorem filter_esNavegacion_llamadas (cs : List ContactoNuevo) :
    (cs.map registrarContacto).filter esNavegacion = [] := by
  rw [List.filter_eq_nil_iff]
  intro a ha
  obtain ⟨c, _, rfl⟩ := List.mem_map.1 ha
  simp [registrarContacto, esNavegacion]

theorem filter_esLlamadaHttp_llamadas (cs : List ContactoNuevo) :
    (cs.map registrarContacto).filter esLlamadaHttp = cs.map registrarContacto := by
  rw [List.filter_eq_self]
  intro a ha
  obtain ⟨c, _, rfl⟩ := List.mem_map.1 ha
  simp [registrarContacto, esLlamadaHttp]

theorem esCrearSolicitud_padre (fd : FormData) :
    esCrearSolicitud (registrarSolicitud fd) = true := by
  simp [registrarSolicitud, esCrearSolicitud]

theorem esCrearContacto_padre (fd : FormData) :
    esCrearContacto (registrarSolicitud fd) = false := by
  simp only [registrarSolicitud, esCrearContacto, beq_eq_false_iff_ne]
  decide

/-- The calls and the navigation found in the trace of a submission that ran
to its end. -/
theorem filtros_traza_exito (fd : FormData) (cs : List ContactoNuevo) (m : String) :
    (Efecto.preventDefault :: registrarSolicitud fd :: cs.map registrarContacto ++
        [Efecto.alert m, Efecto.navigate "/"]).filter esCrearSolicitud = [registrarSolicitud fd] ∧
    (Efecto.preventDefault :: registrarSolicitud fd :: cs.map registrarContacto ++
        [Efecto.alert m, Efecto.navigate "/"]).filter esCrearContacto = cs.map registrarContacto ∧
    (Efecto.preventDefault :: registrarSolicitud fd :: cs.map registrarContacto ++
        [Efecto.alert m, Efecto.navigate "/"]).filter esNavegacion = [Efecto.navigate "/"] ∧
    (Efecto.preventDefault :: registrarSolicitud fd :: cs.map registrarContacto ++
        [Efecto.alert m, Efecto.navigate "/"]).filter esLlamadaHttp =
      registrarSolicitud fd :: cs.map registrarContacto := by
  have a1 : esCrearSolicitud .preventDefault = false := rfl
  have a2 : esCrearSolicitud (.alert m) = false := rfl
  have a3 : esCrearSolicitud (.navigate "/") = false := rfl
  have b1 : esCrearContacto .preventDefault = false := rfl
  have b2 : esCrearContacto (.alert m) = false := rfl
  have b3 : esCrearContacto (.navigate "/") = false := rfl
  have c1 : esNavegacion .preventDefault = false := rfl
  have c2 : esNavegacion (.alert m) = false := rfl
  have c3 : esNavegacion (.navigate "/") = true := rfl
  have c4 : esNavegacion (registrarSolicitud fd) = false := rfl
  have d1 : esLlamadaHttp .preventDefault = false := rfl
  have d2 : esLlamadaHttp (.alert m) = false := rfl
  have d3 : esLlamadaHttp (.navigate "/") = false := rfl
  have d4 : esLlamadaHttp (registrarSolicitud fd) = true := rfl
  refine ⟨?_, ?_, ?_, ?_⟩
  · simp [List.filter_cons, List.filter_append, filter_esCrearSolicitud_llamadas,
      esCrearSolicitud_padre, a1, a2, a3]
  · simp [List.filter_cons, List.filter_append, filter_esCrearContacto_llamadas,
      esCrearContacto_padre, b1, b2, b3]
  · simp [List.filter_cons, List.filter_append, filter_esNavegacion_llamadas, c1, c2, c3, c4]
  · simp [List.filter_cons, List.filter_append, filter_esLlamadaHttp_llamadas, d1, d2, d3, d4]

/-- The calls and the navigation found in the trace of a submission whose
`Promise.all` was rejected. -/
theorem filtros_traza_rechazo (fd : FormData) (cs : List ContactoNuevo) (m : String) :
    (Efecto.preventDefault :: registrarSolicitud fd :: cs.map registrarContacto ++
        [Efecto.consoleError m]).filter esCrearSolicitud = [registrarSolicitud fd] ∧
    (Efecto.preventDefault :: registrarSolicitud fd :: cs.map registrarContacto ++
        [Efecto.consoleError m]).filter esCrearContacto = cs.map registrarContacto ∧
    (Efecto.preventDefault :: registrarSolicitud fd :: cs.map registrarContacto ++
        [Efecto.consoleError m]).filter esNavegacion = [] ∧
    (Efecto.preventDefault :: registrarSolicitud fd :: cs.map registrarContacto ++
        [Efecto.consoleError m]).filter esLlamadaHttp =
      registrarSolicitud fd :: cs.map registrarContacto := by
  have a1 : esCrearSolicitud .preventDefault = false := rfl
  have a2 : esCrearSolicitud (.consoleError m) = false := rfl
  have b1 : esCrearContacto .preventDefault = false := rfl
  have b2 : esCrearContacto (.consoleError m) = false := rfl
  have c1 : esNavegacion .preventDefault = false := rfl
  have c2 : esNavegacion (.consoleError m) = false := rfl
  have c4 : esNavegacion (registrarSolicitud fd) = false := rfl
  have d1 : esLlamadaHttp .preventDefault = false := rfl
  have d2 : esLlamadaHttp (.consoleError m) = false := rfl
  have d4 : esLlamadaHttp (registrarSolicitud fd) = true := rfl
  refine ⟨?_, ?_, ?_, ?_⟩
  · simp [List.filter_cons, List.filter_append, filter_esCrearSolicitud_llamadas,
      esCrearSolicitud_padre, a1, a2]
  · simp [List.filter_cons, List.filter_append, filter_esCrearContacto_llamadas,
      esCrearContacto_padre, b1, b2]
  · simp [List.filter_cons, List.filter_append, filter_esNavegacion_llamadas, c1, c2, c4]
  · simp [List.filter_cons, List.filter_append, filter_esLlamadaHttp_llamadas, d1, d2, d4]

/-- The calls and the navigation found in the trace of a submission whose
parent call failed. -/
theorem filtros_traza_falla_padre (fd : FormData) (m : String) :
    ([Efecto.preventDefault, registrarSolicitud fd, Efecto.consoleError m] : List Efecto).filter
        esCrearSolicitud = [registrarSolicitud fd] ∧
    ([Efecto.preventDefault, registrarSolicitud fd, Efecto.consoleError m] : List Efecto).filter
        esCrearContacto = [] ∧
    ([Efecto.preventDefault, registrarSolicitud fd, Efecto.consoleError m] : List Efecto).filter
        esNavegacion = [] ∧
    ([Efecto.preventDefault, registrarSolicitud fd, Efecto.consoleError m] : List Efecto).filter
        esLlamadaHttp = [registrarSolicitud fd] := by
  have h := filtros_traza_rechazo fd [] m
  simpa using h

/-- The handler never changes the component state and never lets an error escape. -/
theorem handleSubmit_estado_resultado (env : Entorno) (st : Estado) :
    (handleSubmit env st).estado = st ∧ (handleSubmit env st).resultado = .ok () := by
  unfold handleSubmit
  split <;> exact ⟨rfl, rfl⟩

/-- The three shapes of the trace of `handleSubmit`: the parent call failed; the
parent call succeeded and `Promise.all` was rejected; everything succeeded. -/
theorem handleSubmit_casos (env : Entorno) (st : Estado) :
    ((∀ cuerpo, env.solicitud st.formData ≠ .ok { data := some cuerpo }) ∧
      (handleSubmit env st).efectos =
        [.preventDefault, registrarSolicitud st.formData,
          .consoleError "Error al registrar la solicitud y contactos:"]) ∨
    (∃ cuerpo, env.solicitud st.formData = .ok { data := some cuerpo } ∧
      ((∃ e, promiseAll env.contacto 0 (cuerposContactos cuerpo.id st.formData.contactos)
            = .error e) ∧
        (handleSubmit env st).efectos =
          .preventDefault :: registrarSolicitud st.formData ::
            (cuerposContactos cuerpo.id st.formData.contactos).map registrarContacto ++
            [.consoleError "Error al registrar la solicitud y contactos:"] ∨
       promiseAll env.contacto 0 (cuerposContactos cuerpo.id st.formData.contactos) = .ok () ∧
        (handleSubmit env st).efectos =
          .preventDefault :: registrarSolicitud st.formData ::
            (cuerposContactos cuerpo.id st.formData.contactos).map registrarContacto ++
            [.alert "Solicitud y contactos registrados con éxito", .navigate "/"])) := by
  cases hp : env.solicitud st.formData with
  | error e =>
    left
    refine ⟨fun cuerpo h => (by cases h), ?_⟩
    simp [handleSubmit, handleSubmitIntento, hp]
  | ok response =>
    obtain ⟨data⟩ := response
    cases data with
    | none =>
      left
      refine ⟨fun cuerpo h => (by cases h), ?_⟩
      simp [handleSubmit, handleSubmitIntento, hp]
    | some cuerpo =>
      right
      refine ⟨cuerpo, rfl, ?_⟩
      cases hq : promiseAll env.contacto 0 (cuerposContactos cuerpo.id st.formData.contactos) with
      | error e =>
        left
        refine ⟨⟨e, rfl⟩, ?_⟩
        simp [handleSubmit, handleSubmitIntento, hp, hq]
      | ok u =>
        right
        refine ⟨rfl, ?_⟩
        simp [handleSubmit, handleSubmitIntento, hp, hq]

/-- C2: when the parent create call resolves with a body carrying the identifier `id`
and every child create call resolves, `handleSubmit` issues one POST of
`formData` to the requests URL, then one POST to the contacts URL per
pending contact, the k-th with the body
`{solicitudId: id, nombreContacto, numeroContacto}` of the k-th pending
contact, and then navigates to "/". -/
theorem handleSubmit_exito (env : Entorno) (st : Estado) (id : Nat)
    (hpadre : env.solicitud st.formData = .ok { data := some { id := some id } })
    (hhijos : ∀ k (hk : k < st.formData.contactos.length),
      env.contacto k
        { solicitudId := some id
          nombreContacto := (st.formData.contactos.get ⟨k, hk⟩).nombreContacto
          numeroContacto := (st.formData.contactos.get ⟨k, hk⟩).numeroContacto } = .ok ()) :
    (handleSubmit env st).efectos =
      Efecto.preventDefault ::
        Efecto.post "http://localhost:8081/solicitudes" (Cuerpo.solicitud st.formData) ::
        st.formData.contactos.map (fun c =>
          Efecto.post "http://localhost:8081/contactos"
            (Cuerpo.contactoDeSolicitud
              { solicitudId := some id
                nombreContacto := c.nombreContacto
                numeroContacto := c.numeroContacto })) ++
        [Efecto.alert "Solicitud y contactos registrados con éxito", Efecto.navigate "/"] ∧
    (handleSubmit env st).efectos.filter esCrearSolicitud =
      [Efecto.post "http://localhost:8081/solicitudes" (Cuerpo.solicitud st.formData)] ∧
    (handleSubmit env st).efectos.filter esCrearContacto =
      st.formData.contactos.map (fun c =>
        Efecto.post "http://localhost:8081/contactos"
          (Cuerpo.contactoDeSolicitud
            { solicitudId := some id
              nombreContacto := c.nombreContacto
              numeroContacto := c.numeroContacto })) ∧
    (∀ k (hk : k < st.formData.contactos.length),
      ((handleSubmit env st).efectos.filter esCrearContacto)[k]? =
        some (Efecto.post "http://localhost:8081/contactos"
          (Cuerpo.contactoDeSolicitud
            { solicitudId := some id
              nombreContacto := (st.formData.contactos.get ⟨k, hk⟩).nombreContacto
              numeroContacto := (st.formData.contactos.get ⟨k, hk⟩).numeroContacto }))) ∧
    ((handleSubmit env st).efectos.filter esCrearSolicitud).length = 1 ∧
    ((handleSubmit env st).efectos.filter esCrearContacto).length =
      st.formData.contactos.length ∧
    (handleSubmit env st).efectos.filter esNavegacion = [Efecto.navigate "/"] ∧
    (handleSubmit env st).efectos.getLast? = some (Efecto.navigate "/") := by
  have hall : promiseAll env.contacto 0 (cuerposContactos (some id) st.formData.contactos)
      = .ok () := by
    apply promiseAll_ok
    intro j hj
    have hj2 : j < st.formData.contactos.length := by
      simpa [cuerposContactos] using hj
    have := hhijos j hj2
    simpa [cuerposContactos] using this
  have hef : (handleSubmit env st).efectos =
      .preventDefault :: registrarSolicitud st.formData ::
        (cuerposContactos (some id) st.formData.contactos).map registrarContacto ++
        [.alert "Solicitud y contactos registrados con éxito", .navigate "/"] := by
    simp [handleSubmit, handleSubmitIntento, hpadre, hall]
  have hpost : Efecto.post "http://localhost:8081/solicitudes" (Cuerpo.solicitud st.formData) =
      registrarSolicitud st.formData := rfl
  have hmap : st.formData.contactos.map (fun c =>
          Efecto.post "http://localhost:8081/contactos"
            (Cuerpo.contactoDeSolicitud
              { solicitudId := some id
                nombreContacto := c.nombreContacto
                numeroContacto := c.numeroContacto })) =
      (cuerposContactos (some id) st.formData.contactos).map registrarContacto := by
    simp [cuerposContactos, List.map_map, Function.comp_def, registrarContacto, apiContactos]
  have hf := filtros_traza_exito st.formData (cuerposContactos (some id) st.formData.contactos)
    "Solicitud y contactos registrados con éxito"
  rw [hmap, hpost, hef]
  refine ⟨rfl, hf.1, hf.2.1, ?_, ?_, ?_, hf.2.2.1, ?_⟩
  · intro k hk
    rw [hf.2.1, ← hmap, List.getElem?_map, List.getElem?_eq_getElem hk]
    rfl
  · rw [hf.1]; rfl
  · rw [hf.2.1]; simp [cuerposContactos]
  · have h : Efecto.preventDefault :: registrarSolicitud st.formData ::
          (cuerposContactos (some id) st.formData.contactos).map registrarContacto ++
          [Efecto.alert "Solicitud y contactos registrados con éxito", Efecto.navigate "/"] =
        (Efecto.preventDefault :: registrarSolicitud st.formData ::
          (cuerposContactos (some id) st.formData.contactos).map registrarContacto ++
          [Efecto.alert "Solicitud y contactos registrados con éxito"]) ++
          [Efecto.navigate "/"] := by simp
    rw [h, List.getLast?_append]
    simp

/-- The statement of C2 with two pending contacts: one parent-create call and
two child-create calls, each with the identifier returned by the parent call
and the name and number of its contact. -/
theorem handleSubmit_exito_witness :
    entornoExito.solicitud estadoDosContactos.formData =
      .ok { data := some { id := some 41 } } ∧
    (handleSubmit entornoExito estadoDosContactos).efectos =
      [Efecto.preventDefault,
        Efecto.post "http://localhost:8081/solicitudes"
          (Cuerpo.solicitud estadoDosContactos.formData),
        Efecto.post "http://localhost:8081/contactos"
          (Cuerpo.contactoDeSolicitud
            { solicitudId := some 41, nombreContacto := "Luis", numeroContacto := "911" }),
        Efecto.post "http://localhost:8081/contactos"
          (Cuerpo.contactoDeSolicitud
            { solicitudId := some 41, nombreContacto := "Eva", numeroContacto := "922" }),
        Efecto.alert "Solicitud y contactos registrados con éxito",
        Efecto.navigate "/"] ∧
    ((handleSubmit entornoExito estadoDosContactos).efectos.filter esCrearSolicitud).length = 1 ∧
    ((handleSubmit entornoExito estadoDosContactos).efectos.filter esCrearContacto).length = 2 :=
  ⟨rfl,
    (handleSubmit_exito entornoExito estadoDosContactos 41 rfl (fun _ _ => rfl)).1,
    (handleSubmit_exito entornoExito estadoDosContactos 41 rfl (fun _ _ => rfl)).2.2.2.2.1,
    (handleSubmit_exito entornoExito estadoDosContactos 41 rfl (fun _ _ => rfl)).2.2.2.2.2.1⟩

/-- C3: when the parent create call fails (it rejects, or it resolves with an empty
body), `handleSubmit` issues no child create call and does not navigate, the
state is unchanged, and the failure is caught inside the handler. -/
theorem handleSubmit_falla_padre (env : Entorno) (st : Estado)
    (hpadre : (∃ e, env.solicitud st.formData = .error e) ∨
      env.solicitud st.formData = .ok { data := none }) :
    (handleSubmit env st).efectos =
      [.preventDefault, registrarSolicitud st.formData,
        .consoleError "Error al registrar la solicitud y contactos:"] ∧
    (handleSubmit env st).efectos.filter esCrearContacto = [] ∧
    (handleSubmit env st).efectos.filter esNavegacion = [] ∧
    (handleSubmit env st).estado = st ∧
    (handleSubmit env st).resultado = .ok () := by
  have hef : (handleSubmit env st).efectos =
      [.preventDefault, registrarSolicitud st.formData,
        .consoleError "Error al registrar la solicitud y contactos:"] := by
    rcases hpadre with ⟨e, h⟩ | h <;> simp [handleSubmit, handleSubmitIntento, h]
  have hf := filtros_traza_falla_padre st.formData "Error al registrar la solicitud y contactos:"
  refine ⟨hef, ?_, ?_, (handleSubmit_estado_resultado env st).1,
    (handleSubmit_estado_resultado env st).2⟩
  · rw [hef]; exact hf.2.1
  · rw [hef]; exact hf.2.2.1

/-- The statement of C3 on the example form when the parent call resolves with
an empty body. -/
theorem handleSubmit_falla_padre_witness :
    ((∃ e, entornoCuerpoVacio.solicitud estadoDosContactos.formData = .error e) ∨
      entornoCuerpoVacio.solicitud estadoDosContactos.formData = .ok { data := none }) ∧
    (handleSubmit entornoCuerpoVacio estadoDosContactos).efectos.filter esCrearContacto = [] :=
  ⟨Or.inr rfl, (handleSubmit_falla_padre entornoCuerpoVacio estadoDosContactos (Or.inr rfl)).2.1⟩

/-- Whatever the network answers, the network calls of `handleSubmit` are the
parent call alone or the parent call followed by the child calls, and the
only create call for a request is the one carrying `formData`. -/
theorem handleSubmit_llamadas (env : Entorno) (st : Estado) :
    (handleSubmit env st).efectos.filter esCrearSolicitud = [registrarSolicitud st.formData] ∧
    ((handleSubmit env st).efectos.filter esLlamadaHttp = [registrarSolicitud st.formData] ∨
      ∃ cuerpo, env.solicitud st.formData = .ok { data := some cuerpo } ∧
        (handleSubmit env st).efectos.filter esLlamadaHttp =
          registrarSolicitud st.formData ::
            (cuerposContactos cuerpo.id st.formData.contactos).map registrarContacto) := by
  rcases handleSubmit_casos env st with ⟨_, hef⟩ | ⟨cuerpo, hc, ⟨_, hef⟩ | ⟨_, hef⟩⟩
  · have hf := filtros_traza_falla_padre st.formData "Error al registrar la solicitud y contactos:"
    rw [hef]
    exact ⟨hf.1, Or.inl hf.2.2.2⟩
  · have hf := filtros_traza_rechazo st.formData
      (cuerposContactos cuerpo.id st.formData.contactos)
      "Error al registrar la solicitud y contactos:"
    rw [hef]
    exact ⟨hf.1, Or.inr ⟨cuerpo, hc, hf.2.2.2⟩⟩
  · have hf := filtros_traza_exito st.formData
      (cuerposContactos cuerpo.id st.formData.contactos)
      "Solicitud y contactos registrados con éxito"
    rw [hef]
    exact ⟨hf.1, Or.inr ⟨cuerpo, hc, hf.2.2.2⟩⟩

/-- C4: once the parent create call has succeeded, `handleSubmit` issues the child
create call of every pending contact whatever the outcome of the others, the
parent call and the child calls are the only network calls (no delete, no
compensating call), no error leaves the handler, and when some child call
fails there is no navigation. -/
theorem handleSubmit_hijos (env : Entorno) (st : Estado) (cuerpo : CuerpoRespuesta)
    (hpadre : env.solicitud st.formData = .ok { data := some cuerpo }) :
    (handleSubmit env st).efectos.filter esCrearContacto =
      (cuerposContactos cuerpo.id st.formData.contactos).map registrarContacto ∧
    ((handleSubmit env st).efectos.filter esCrearContacto).length =
      st.formData.contactos.length ∧
    (handleSubmit env st).efectos.filter esLlamadaHttp =
      registrarSolicitud st.formData ::
        (cuerposContactos cuerpo.id st.formData.contactos).map registrarContacto ∧
    (∀ url, Efecto.delete url ∉ (handleSubmit env st).efectos) ∧
    (handleSubmit env st).resultado = .ok () ∧
    ((∃ k, ∃ hk : k < st.formData.contactos.length, ∃ e,
        env.contacto k
          { solicitudId := cuerpo.id
            nombreContacto := (st.formData.contactos.get ⟨k, hk⟩).nombreContacto
            numeroContacto := (st.formData.contactos.get ⟨k, hk⟩).numeroContacto } = .error e) →
      (handleSubmit env st).efectos.filter esNavegacion = [] ∧
      ∀ ruta, Efecto.navigate ruta ∉ (handleSubmit env st).efectos) := by
  have hhijos : (handleSubmit env st).efectos.filter esCrearContacto =
        (cuerposContactos cuerpo.id st.formData.contactos).map registrarContacto ∧
      (handleSubmit env st).efectos.filter esLlamadaHttp =
        registrarSolicitud st.formData ::
          (cuerposContactos cuerpo.id st.formData.contactos).map registrarContacto ∧
      ((∃ e, promiseAll env.contacto 0 (cuerposContactos cuerpo.id st.formData.contactos)
          = .error e) → (handleSubmit env st).efectos.filter esNavegacion = []) := by
    rcases handleSubmit_casos env st with ⟨hno, _⟩ | ⟨cuerpo2, hc, ⟨_, hef⟩ | ⟨hok, hef⟩⟩
    · exact absurd hpadre (hno cuerpo)
    · rw [hpadre] at hc
      cases hc
      have hf := filtros_traza_rechazo st.formData
        (cuerposContactos cuerpo.id st.formData.contactos)
        "Error al registrar la solicitud y contactos:"
      rw [hef]
      exact ⟨hf.2.1, hf.2.2.2, fun _ => hf.2.2.1⟩
    · rw [hpadre] at hc
      cases hc
      have hf := filtros_traza_exito st.formData
        (cuerposContactos cuerpo.id st.formData.contactos)
        "Solicitud y contactos registrados con éxito"
      rw [hef]
      refine ⟨hf.2.1, hf.2.2.2, ?_⟩
      rintro ⟨e, he⟩
      rw [hok] at he
      cases he
  obtain ⟨h1, h2, h3⟩ := hhijos
  refine ⟨h1, ?_, h2, ?_, (handleSubmit_estado_resultado env st).2, ?_⟩
  · rw [h1]; simp [cuerposContactos]
  · intro url hmem
    have hin : Efecto.delete url ∈ (handleSubmit env st).efectos.filter esLlamadaHttp :=
      List.mem_filter.2 ⟨hmem, rfl⟩
    rw [h2] at hin
    rcases List.mem_cons.1 hin with h | h
    · cases h
    · obtain ⟨c, _, hc⟩ := List.mem_map.1 h
      cases hc
  · rintro ⟨k, hk, e, he⟩
    have herr : ∃ e, promiseAll env.contacto 0
        (cuerposContactos cuerpo.id st.formData.contactos) = .error e := by
      apply promiseAll_error
      refine ⟨k, by simpa [cuerposContactos] using hk, e, ?_⟩
      simpa [cuerposContactos] using he
    have hnav := h3 herr
    refine ⟨hnav, ?_⟩
    intro ruta hmem
    have hin : Efecto.navigate ruta ∈ (handleSubmit env st).efectos.filter esNavegacion :=
      List.mem_filter.2 ⟨hmem, rfl⟩
    rw [hnav] at hin
    cases hin

/-- The statement of C4 with two pending contacts of which the second fails:
both child calls are issued and there is no navigation. -/
theorem handleSubmit_hijos_witness :
    entornoFallaSegundo.solicitud estadoDosContactos.formData =
      .ok { data := some { id := some 41 } } ∧
    (handleSubmit entornoFallaSegundo estadoDosContactos).efectos.filter esCrearContacto =
      [registrarContacto
          { solicitudId := some 41, nombreContacto := "Luis", numeroContacto := "911" },
        registrarContacto
          { solicitudId := some 41, nombreContacto := "Eva", numeroContacto := "922" }] ∧
    (handleSubmit entornoFallaSegundo estadoDosContactos).efectos.filter esNavegacion = [] :=
  ⟨rfl,
    (handleSubmit_hijos entornoFallaSegundo estadoDosContactos { id := some 41 } rfl).1,
    ((handleSubmit_hijos entornoFallaSegundo estadoDosContactos { id := some 41 } rfl).2.2.2.2.2
      ⟨1, by decide, "500", rfl⟩).1⟩

/-- C5, as stated, fails: on the example form the body of the parent create call
carries the two pending contacts. -/
theorem handleSubmit_cuerpo_sin_contactos_falso :
    ¬ ∀ datos : FormData,
      Efecto.post apiSolicitudes (Cuerpo.solicitud datos) ∈
          (handleSubmit entornoExito estadoDosContactos).efectos →
        datos.contactos = [] := by
  intro h
  have h2 := h estadoDosContactos.formData (by decide)
  revert h2
  decide

/-- C5, amended: the body of the parent create call is the whole `formData`, that is
the five field values together with the list of pending contacts; it is the
only create call for a request in the trace. -/
theorem handleSubmit_cuerpo_padre (env : Entorno) (st : Estado) :
    (handleSubmit env st).efectos.filter esCrearSolicitud =
      [Efecto.post apiSolicitudes (Cuerpo.solicitud st.formData)] ∧
    ∀ datos : FormData,
      Efecto.post apiSolicitudes (Cuerpo.solicitud datos) ∈ (handleSubmit env st).efectos →
        (datos.marcaId = st.formData.marcaId ∧
          datos.tipoSolicitudId = st.formData.tipoSolicitudId ∧
          datos.nombreContacto = st.formData.nombreContacto ∧
          datos.numeroContacto = st.formData.numeroContacto ∧
          datos.fechaEnvio = st.formData.fechaEnvio ∧
          datos.contactos = st.formData.contactos) := by
  have h1 := (handleSubmit_llamadas env st).1
  refine ⟨h1, ?_⟩
  intro datos hmem
  have hin : Efecto.post apiSolicitudes (Cuerpo.solicitud datos) ∈
      (handleSubmit env st).efectos.filter esCrearSolicitud :=
    List.mem_filter.2 ⟨hmem, by simp [esCrearSolicitud]⟩
  rw [h1] at hin
  have heq := List.mem_singleton.1 hin
  simp only [registrarSolicitud, Efecto.post.injEq, Cuerpo.solicitud.injEq, true_and] at heq
  subst heq
  exact ⟨rfl, rfl, rfl, rfl, rfl, rfl⟩

/-! ## Loading of the lookup collections -/

/-- C12: `obtenerMarcas` and `obtenerTipoSolicitudes` never fail: whatever the outcome of
the GET, the promise resolves, to the body of the response when the GET
succeeds and to the empty list when it fails. -/
theorem obtener_nunca_falla (respuesta : Except String RespuestaLista) :
    (obtenerMarcas respuesta).resultado =
      .ok (match respuesta with
        | .ok response => response.data
        | .error _ => some []) ∧
    (obtenerTipoSolicitudes respuesta).resultado =
      .ok (match respuesta with
        | .ok response => response.data
        | .error _ => some []) ∧
    (∀ e, (obtenerMarcas respuesta).resultado ≠ .error e) ∧
    (∀ e, (obtenerTipoSolicitudes respuesta).resultado ≠ .error e) ∧
    (obtenerMarcas respuesta).llamadas = [Efecto.get apiMarca] ∧
    (obtenerTipoSolicitudes respuesta).llamadas = [Efecto.get apiTipoSolicitud] := by
  cases respuesta with
  | error e =>
    refine ⟨rfl, rfl, ?_, ?_, rfl, rfl⟩ <;> intro e2 h <;> cases h
  | ok response =>
    refine ⟨rfl, rfl, ?_, ?_, rfl, rfl⟩ <;> intro e2 h <;> cases h

/-- The collections stored by `cargarDatos`: each one is the body of its own
response, or empty when its request failed or returned a falsy body. -/
theorem cargarDatos_estado (env : EntornoCarga) (st : Estado) :
    (cargarDatos env st).estado =
      { st with
        marcas := (match env.marcas with
          | .ok response => oVacia response.data
          | .error _ => [])
        tiposSolicitud := (match env.tipos with
          | .ok response => oVacia response.data
          | .error _ => []) } := by
  unfold cargarDatos
  cases hm : env.marcas <;> cases ht : env.tipos <;> rfl

/-- C11, as stated, fails: when the brand request fails and the request-type request
returns one entry, `tiposSolicitud` holds that entry after `cargarDatos`. -/
theorem cargarDatos_no_vacia_ambas :
    ¬ ((cargarDatos entornoFallaMarcas (estadoInicial 0)).estado.marcas = [] ∧
       (cargarDatos entornoFallaMarcas (estadoInicial 0)).estado.tiposSolicitud = []) := by
  decide

/-- C11, amended: a failed fetch empties its own collection only.  After `cargarDatos`,
`marcas` is empty when the brand request fails and `tiposSolicitud` is empty
when the request-type request fails, while the other collection holds what
its own request returned; the `catch` of `cargarDatos` is never entered. -/
theorem cargarDatos_falla_independiente (env : EntornoCarga) (st : Estado) :
    ((∃ e, env.marcas = .error e) → (cargarDatos env st).estado.marcas = []) ∧
    ((∃ e, env.tipos = .error e) → (cargarDatos env st).estado.tiposSolicitud = []) ∧
    (∀ response, env.marcas = .ok response →
      (cargarDatos env st).estado.marcas = oVacia response.data) ∧
    (∀ response, env.tipos = .ok response →
      (cargarDatos env st).estado.tiposSolicitud = oVacia response.data) ∧
    (cargarDatos env st).efectos.filter
      (fun e => e == Efecto.consoleError "Error al obtener datos:") = [] ∧
    (cargarDatos env st).estado.formData = st.formData ∧
    (∀ l, env.marcas = .ok { data := some l } → (cargarDatos env st).estado.marcas = l) ∧
    (∀ l, env.tipos = .ok { data := some l } →
      (cargarDatos env st).estado.tiposSolicitud = l) ∧
    (env.marcas = .ok { data := none } → (cargarDatos env st).estado.marcas = []) ∧
    (env.tipos = .ok { data := none } → (cargarDatos env st).estado.tiposSolicitud = []) := by
  have h := cargarDatos_estado env st
  refine ⟨?_, ?_, ?_, ?_, ?_, ?_, ?_, ?_, ?_, ?_⟩
  · rintro ⟨e, he⟩; rw [h, he]
  · rintro ⟨e, he⟩; rw [h, he]
  · intro response he; rw [h, he]
  · intro response he; rw [h, he]
  · unfold cargarDatos
    cases hm : env.marcas <;> cases ht : env.tipos <;>
      simp [obtenerMarcas, obtenerTipoSolicitudes]
  · rw [h]
  · intro l he; rw [h, he]; rfl
  · intro l he; rw [h, he]; rfl
  · intro he; rw [h, he]; rfl
  · intro he; rw [h, he]; rfl

/-- The statement of C11 as amended, when the brand request fails and the
request-type request returns one entry. -/
theorem cargarDatos_falla_independiente_witness :
    (∃ e, entornoFallaMarcas.marcas = .error e) ∧
    (cargarDatos entornoFallaMarcas (estadoInicial 0)).estado.marcas = [] ∧
    (cargarDatos entornoFallaMarcas (estadoInicial 0)).estado.tiposSolicitud =
      [{ id := 2, descripcion := "Garantia" }] :=
  ⟨⟨"Network Error", rfl⟩,
    (cargarDatos_falla_independiente entornoFallaMarcas (estadoInicial 0)).1
      ⟨"Network Error", rfl⟩,
    (cargarDatos_falla_independiente entornoFallaMarcas (estadoInicial 0)).2.2.2.1
      { data := some [{ id := 2, descripcion := "Garantia" }] } rfl⟩

/-! ## The delete action of the list view -/

/-- C13: when the confirmation is declined `handleDeleteSolicitud` issues no delete
call and no re-fetch and leaves the collection and the filters as they were;
a delete call occurs in the trace only when the confirmation was accepted,
and it is then the call for the identifier given. -/
theorem handleDeleteSolicitud_confirmacion (confirmado : Bool) (borrado : Except String Unit)
    (st : EstadoLista) (solicitudId : Nat) :
    (handleDeleteSolicitud false borrado st solicitudId).efectos =
      [Efecto.confirm "¿Estás seguro de que deseas eliminar esta solicitud?"] ∧
    (handleDeleteSolicitud false borrado st solicitudId).efectos.filter esLlamadaHttp = [] ∧
    (handleDeleteSolicitud false borrado st solicitudId).estado = st ∧
    (handleDeleteSolicitud false borrado st solicitudId).resultado = .ok () ∧
    ((∃ e ∈ (handleDeleteSolicitud confirmado borrado st solicitudId).efectos,
        esBorrado e = true) ↔ confirmado = true) ∧
    (handleDeleteSolicitud confirmado borrado st solicitudId).efectos.filter esBorrado =
      (if confirmado then [eliminarSolicitud solicitudId] else []) ∧
    (handleDeleteSolicitud confirmado borrado st solicitudId).efectos.head? =
      some (Efecto.confirm "¿Estás seguro de que deseas eliminar esta solicitud?") := by
  have hfil : (handleDeleteSolicitud confirmado borrado st solicitudId).efectos.filter esBorrado =
      (if confirmado then [eliminarSolicitud solicitudId] else []) := by
    cases confirmado <;> cases borrado <;> rfl
  refine ⟨rfl, rfl, rfl, rfl, ?_, hfil, ?_⟩
  · constructor
    · rintro ⟨e, hmem, he⟩
      have hin : e ∈ (handleDeleteSolicitud confirmado borrado st solicitudId).efectos.filter
          esBorrado := List.mem_filter.2 ⟨hmem, he⟩
      rw [hfil] at hin
      cases confirmado with
      | true => rfl
      | false => simp at hin
    · intro hc
      subst hc
      refine ⟨eliminarSolicitud solicitudId, ?_, rfl⟩
      cases borrado <;> simp [handleDeleteSolicitud]
  · cases confirmado <;> cases borrado <;> rfl

/-- C14, as stated, fails: when the confirmation is accepted and the delete call fails,
no re-fetch is issued. -/
theorem handleDeleteSolicitud_sin_recarga_si_falla :
    ¬ ∀ borrado : Except String Unit,
      ((handleDeleteSolicitud true borrado listaTresFechas 7).efectos.filter esRecarga).length
        = 1 := by
  intro h
  have h2 := h (.error "500")
  revert h2
  decide

/-- C14, amended: when the confirmation is accepted `handleDeleteSolicitud` issues one
delete call, for the identifier given; the re-fetch of the collection follows
it exactly when the delete call succeeded, and when it failed the error is
logged and nothing is fetched.  In both cases the handler leaves the
collection as it was: a row goes away only when the body of the re-fetch is
stored. -/
theorem handleDeleteSolicitud_aceptado (borrado : Except String Unit)
    (st : EstadoLista) (solicitudId : Nat) :
    (handleDeleteSolicitud true borrado st solicitudId).efectos.filter esBorrado =
      [Efecto.delete (apiSolicitudes ++ "/" ++ toString solicitudId)] ∧
    (handleDeleteSolicitud true borrado st solicitudId).efectos.filter esRecarga =
      (match borrado with
        | .ok _ => [Efecto.get apiSolicitudes]
        | .error _ => []) ∧
    (handleDeleteSolicitud true borrado st solicitudId).efectos =
      (match borrado with
        | .ok _ =>
          [Efecto.confirm "¿Estás seguro de que deseas eliminar esta solicitud?",
            Efecto.delete (apiSolicitudes ++ "/" ++ toString solicitudId),
            Efecto.alert "Solicitud eliminada correctamente",
            Efecto.get apiSolicitudes]
        | .error _ =>
          [Efecto.confirm "¿Estás seguro de que deseas eliminar esta solicitud?",
            Efecto.delete (apiSolicitudes ++ "/" ++ toString solicitudId),
            Efecto.consoleError "Error al eliminar la solicitud:"]) ∧
    (handleDeleteSolicitud true borrado st solicitudId).estado = st ∧
    (handleDeleteSolicitud true borrado st solicitudId).resultado = .ok () ∧
    (∀ data, (recibirSolicitudes st (.ok data)).estado = { st with solicitudes := data }) ∧
    (∀ e, (recibirSolicitudes st (.error e)).estado = st) := by
  cases borrado with
  | error e => exact ⟨rfl, rfl, rfl, rfl, rfl, fun _ => rfl, fun _ => rfl⟩
  | ok u => exact ⟨rfl, by simp [handleDeleteSolicitud, cargarSolicitudes, obtenerSolicitudes,
      eliminarSolicitud, esRecarga], rfl, rfl, rfl, fun _ => rfl, fun _ => rfl⟩

/-! ## The standalone contact form -/

/-- C16: `handleSubmit` of `RegistroContacto` issues one create call carrying the
current name and number; when the call succeeds the form is cleared, and
when it fails the form keeps the values it had and the error stays inside
the handler. -/
theorem registroContacto_handleSubmit (respuesta : Except String Unit) (contacto : Contacto) :
    (RegistroContacto.handleSubmit respuesta contacto).efectos.filter esLlamadaHttp =
      [Efecto.post apiContactos
        (Cuerpo.contacto
          { nombreContacto := contacto.nombreContacto
            numeroContacto := contacto.numeroContacto })] ∧
    (RegistroContacto.handleSubmit respuesta contacto).contacto =
      (match respuesta with
        | .ok _ => { nombreContacto := "", numeroContacto := "" }
        | .error _ => contacto) ∧
    (RegistroContacto.handleSubmit respuesta contacto).resultado = .ok () := by
  cases respuesta <;> exact ⟨rfl, rfl, rfl⟩

/-! ## Requests without a submission date -/

/-- C19: a request whose submission date is absent (missing or the empty string) is
excluded as soon as the start filter or the end filter is set, whatever the
dates, and with both date filters empty it is kept exactly when the type
clause holds. -/
theorem pasaFiltro_sin_fecha (P : Plataforma) (filtroFechaInicio filtroFechaFin filtroTipo : String)
    (s : Solicitud) (hs : s.fechaEnvio = none ∨ s.fechaEnvio = some "") :
    ((filtroFechaInicio ≠ "" ∨ filtroFechaFin ≠ "") →
      pasaFiltro P filtroFechaInicio filtroFechaFin filtroTipo s = false) ∧
    (pasaFiltro P "" "" filtroTipo s = true ↔
      (filtroTipo = "" ∨
        (P.toLowerCase filtroTipo).data <:+:
          ((s.tipoSolicitudDescripcion.map P.toLowerCase).getD "").data)) := by
  have hfecha : fechaONull P s.fechaEnvio = none := by
    rcases hs with h | h <;> simp [fechaONull, h, esVerdadero]
  have htipo : tipoEnMinusculas P s.tipoSolicitudDescripcion =
      (s.tipoSolicitudDescripcion.map P.toLowerCase).getD "" := by
    unfold tipoEnMinusculas
    cases s.tipoSolicitudDescripcion with
    | none => rfl
    | some t =>
      by_cases ht : P.toLowerCase t = "" <;> simp [esVerdadero, ht]
  constructor
  · intro h
    unfold pasaFiltro
    simp only [hfecha]
    rcases h with h | h
    · simp [fechaONull, esVerdadero, h]
    · by_cases hi : filtroFechaInicio = "" <;> simp [fechaONull, esVerdadero, h, hi]
  · unfold pasaFiltro
    simp only [hfecha, htipo]
    have hc : esVerdadero filtroTipo = false ↔ filtroTipo = "" := by
      simp [esVerdadero]
    simp only [fechaONull, esVerdadero, bne_self_eq_false, Bool.false_eq_true, if_false,
      Bool.true_and, Bool.or_eq_true, Bool.not_eq_true', bne_eq_false_iff_eq]
    unfold includes
    rw [includesLista_iff]

/-- The statement of C19 on a request without a date and a start filter. -/
theorem pasaFiltro_sin_fecha_witness :
    (({ solicitudJunio with fechaEnvio := none } : Solicitud).fechaEnvio = none ∨
      ({ solicitudJunio with fechaEnvio := none } : Solicitud).fechaEnvio = some "") ∧
    pasaFiltro plataformaIso "2024-03-01" "" "" { solicitudJunio with fechaEnvio := none }
      = false :=
  ⟨Or.inl rfl,
    (pasaFiltro_sin_fecha plataformaIso "2024-03-01" "" "" { solicitudJunio with fechaEnvio := none }
      (Or.inl rfl)).1 (Or.inl (by decide))⟩

/-! ## The length test of the phone field -/

/-- C20: the length test of `handleInputChange` is redundant: the conjunction of
`value.length <= 9` and `validateTelefono(value)` holds exactly when
`validateTelefono(value)` holds, so the handler and the handler without the
length test agree on every input. -/
theorem handleInputChange_longitud_redundante (st : Estado) (name v : String) :
    ((jsLength v ≤ 9 ∧ validateTelefono v = true) ↔ validateTelefono v = true) ∧
    (decide (jsLength v ≤ 9) && validateTelefono v) = validateTelefono v ∧
    handleInputChange st name v = handleInputChangeSinLongitud st name v ∧
    (handleInputChange st "numeroContacto" v ≠ st → validateTelefono v = true) := by
  have h := validateTelefono_iff_jsLength v
  have h1 : (jsLength v ≤ 9 ∧ validateTelefono v = true) ↔ validateTelefono v = true := by
    rw [h]; tauto
  have h2 : (decide (jsLength v ≤ 9) && validateTelefono v) = validateTelefono v := by
    cases hv : validateTelefono v with
    | false => simp
    | true =>
      have := (h.1 hv).1
      simp [this]
  refine ⟨h1, h2, ?_, ?_⟩
  · unfold handleInputChange handleInputChangeSinLongitud
    rw [h2]
  · intro hne
    by_contra hv
    apply hne
    unfold handleInputChange
    simp [hv]

/-- The statement of C20 on a value that the handler stores. -/
theorem handleInputChange_longitud_redundante_witness :
    handleInputChange estadoDosContactos "numeroContacto" "12345" ≠ estadoDosContactos ∧
    validateTelefono "12345" = true :=
  ⟨by decide,
    (handleInputChange_longitud_redundante estadoDosContactos "numeroContacto" "12345").2.2.2
      (by decide)⟩

/-! ## Invariants of the registration form -/

/-- A property of the initial state that every action preserves holds in every
state reached. -/
theorem alcanzado_invariante (I : Estado → Prop) (ahora : Int)
    (hini : I (estadoInicial ahora)) (hpaso : ∀ st a, I st → I (aplicar st a))
    (acciones : List Accion) : I (alcanzado ahora acciones) := by
  unfold alcanzado
  generalize estadoInicial ahora = st0 at hini
  induction acciones generalizing st0 with
  | nil => exact hini
  | cons a as ih => exact ih (aplicar st0 a) (hpaso st0 a hini)

/-- The actions other than the phone input leave the primary number alone, and
the phone input stores only what the validator accepts. -/
theorem aplicar_numero_valido (st : Estado) (a : Accion)
    (h : validateTelefono st.formData.numeroContacto = true) :
    validateTelefono (aplicar st a).formData.numeroContacto = true := by
  cases a with
  | cambiarNumero value =>
    simp only [aplicar, handleInputChange, if_true]
    by_cases hc : (decide (jsLength value ≤ 9) && validateTelefono value) = true
    · rw [if_pos hc]
      simp only [Bool.and_eq_true] at hc
      exact hc.2
    · rw [if_neg hc]
      exact h
  | agregarContacto =>
    simp only [aplicar, handleAddContacto]
    split <;> exact h
  | cargarDatos env =>
    simp only [aplicar, cargarDatos_estado]
    exact h
  | enviar env =>
    simp only [aplicar, (handleSubmit_estado_resultado env st).1]
    exact h
  | _ => exact h

/-- C17: in every state reached from the initial one through the handlers as they are
wired to the form, the primary contact number is a string of at most 9
characters, all of them digits, so the value sent by `handleSubmit` passes
`validateTelefono`. -/
theorem numeroContacto_siempre_valido (ahora : Int) (acciones : List Accion) :
    validateTelefono (alcanzado ahora acciones).formData.numeroContacto = true ∧
    jsLength (alcanzado ahora acciones).formData.numeroContacto ≤ 9 ∧
    (alcanzado ahora acciones).formData.numeroContacto.length ≤ 9 ∧
    soloDigitos (alcanzado ahora acciones).formData.numeroContacto = true ∧
    (∀ env : Entorno,
      Efecto.post apiSolicitudes (Cuerpo.solicitud (alcanzado ahora acciones).formData) ∈
        (handleSubmit env (alcanzado ahora acciones)).efectos) := by
  have hv : validateTelefono (alcanzado ahora acciones).formData.numeroContacto = true :=
    alcanzado_invariante
      (fun st => validateTelefono st.formData.numeroContacto = true) ahora
      (by show validateTelefono "" = true; decide) aplicar_numero_valido acciones
  have h1 := (validateTelefono_iff_jsLength _).1 hv
  have h2 := (validateTelefono_iff _).1 hv
  refine ⟨hv, h1.1, h2.1, h1.2, ?_⟩
  intro env
  have hll := (handleSubmit_llamadas env (alcanzado ahora acciones)).1
  have hmem : registrarSolicitud (alcanzado ahora acciones).formData ∈
      (handleSubmit env (alcanzado ahora acciones)).efectos.filter esCrearSolicitud := by
    rw [hll]; exact List.mem_singleton.2 rfl
  exact (List.mem_filter.1 hmem).1

/-- The entries kept by a filter on positions are entries of the list. -/
theorem mem_filtrarConIndice {α : Type} (p : α → Nat → Bool) (l : List α) :
    ∀ (desde : Nat) (x : α), x ∈ filtrarConIndice p desde l → x ∈ l := by
  induction l with
  | nil => intro desde x h; simp [filtrarConIndice] at h
  | cons y ys ih =>
    intro desde x h
    simp only [filtrarConIndice] at h
    split at h
    · rcases List.mem_cons.1 h with h | h
      · exact List.mem_cons.2 (Or.inl h)
      · exact List.mem_cons.2 (Or.inr (ih _ _ h))
    · exact List.mem_cons.2 (Or.inr (ih _ _ h))

/-- Every action keeps the pending contacts complete. -/
theorem aplicar_contactos_completos (st : Estado) (a : Accion)
    (h : ∀ c ∈ st.formData.contactos, c.nombreContacto ≠ "" ∧ c.numeroContacto ≠ "") :
    ∀ c ∈ (aplicar st a).formData.contactos, c.nombreContacto ≠ "" ∧ c.numeroContacto ≠ "" := by
  cases a with
  | cambiarNumero value =>
    simp only [aplicar, handleInputChange, if_true]
    split <;> exact h
  | agregarContacto =>
    simp only [aplicar, handleAddContacto]
    split
    · exact h
    · rename_i hg
      simp only [Bool.or_eq_true, Bool.not_eq_true', not_or, Bool.not_eq_false,
        esVerdadero_iff] at hg
      intro c hc
      rcases List.mem_append.1 hc with hc | hc
      · exact h c hc
      · rw [List.mem_singleton.1 hc]
        exact hg
  | quitarContacto index =>
    intro c hc
    exact h c (mem_filtrarConIndice _ _ _ _ hc)
  | cargarDatos env =>
    simp only [aplicar, cargarDatos_estado]
    exact h
  | enviar env =>
    simp only [aplicar, (handleSubmit_estado_resultado env st).1]
    exact h
  | _ => exact h

/-- C18: starting from the empty list, after any sequence of actions on the form (among
them `handleAddContacto` with any sub-form contents and `handleRemoveContacto`
with any index, valid or not), every pending contact has a non-empty name
and a non-empty number. -/
theorem contactos_siempre_completos (ahora : Int) (acciones : List Accion) :
    (alcanzado ahora []).formData.contactos = [] ∧
    ∀ c ∈ (alcanzado ahora acciones).formData.contactos,
      c.nombreContacto ≠ "" ∧ c.numeroContacto ≠ "" := by
  refine ⟨rfl, ?_⟩
  exact alcanzado_invariante
    (fun st => ∀ c ∈ st.formData.contactos, c.nombreContacto ≠ "" ∧ c.numeroContacto ≠ "")
    ahora (by intro c hc; simp [estadoInicial] at hc) aplicar_contactos_completos acciones

/-! ## The date range of the list view -/

theorem diasDelMes_febrero (y : Nat) :
    diasDelMes y 2 = 28 ∨ (diasDelMes y 2 = 29 ∧ (y % 4 = 0 ∧ y % 100 ≠ 0 ∨ y % 400 = 0)) := by
  unfold diasDelMes esBisiesto
  by_cases h : (y % 4 == 0 && y % 100 != 0 || y % 400 == 0) = true
  · right
    simp only [h, if_true, true_and]
    simpa using h
  · left
    simp [h]

theorem diasDelMes_febrero_28 (y : Nat) (h : diasDelMes y 2 = 28) :
    ¬ (y % 4 = 0 ∧ y % 100 ≠ 0 ∨ y % 400 = 0) := by
  unfold diasDelMes esBisiesto at h
  by_cases hb : (y % 4 == 0 && y % 100 != 0 || y % 400 == 0) = true
  · simp [hb] at h
  · simpa using hb

theorem diasDelMes_le (y m : Nat) : diasDelMes y m ≤ 31 := by
  unfold diasDelMes
  split
  · split <;> omega
  · split
    · omega
    · split <;> omega

/-- The day count is the count of day 0 of the month plus the day. -/
theorem diasDesdeEpoca_lineal (y m d : Nat) :
    diasDesdeEpoca y m d = diasDesdeEpoca y m 0 + (d : Int) := by
  unfold diasDesdeEpoca
  simp only
  split <;> omega

/-- Day 0 of a month is the last day of the month before it. -/
theorem diasDesdeEpoca_mes_siguiente (y m : Nat) (h1 : 1 ≤ m) (h11 : m ≤ 11) :
    diasDesdeEpoca y (m + 1) 0 = diasDesdeEpoca y m 0 + (diasDelMes y m : Int) := by
  interval_cases m
  · have h : diasDelMes y 1 = 31 := by simp [diasDelMes]
    rw [h]; unfold diasDesdeEpoca
    simp only [Nat.reduceAdd, Nat.reduceLeDiff, if_true]; omega
  · rcases diasDelMes_febrero y with h | ⟨h, hb⟩
    · have hn := diasDelMes_febrero_28 y h
      rw [h]; unfold diasDesdeEpoca
      simp only [Nat.reduceAdd, Nat.reduceLeDiff, if_true, if_false, le_refl]; omega
    · rw [h]; unfold diasDesdeEpoca
      simp only [Nat.reduceAdd, Nat.reduceLeDiff, if_true, if_false, le_refl]; omega
  · have h : diasDelMes y 3 = 31 := by simp [diasDelMes]
    rw [h]; unfold diasDesdeEpoca
    simp only [Nat.reduceAdd, Nat.reduceLeDiff, if_false]; omega
  · have h : diasDelMes y 4 = 30 := by simp [diasDelMes]
    rw [h]; unfold diasDesdeEpoca
    simp only [Nat.reduceAdd, Nat.reduceLeDiff, if_false]; omega
  · have h : diasDelMes y 5 = 31 := by simp [diasDelMes]
    rw [h]; unfold diasDesdeEpoca
    simp only [Nat.reduceAdd, Nat.reduceLeDiff, if_false]; omega
  · have h : diasDelMes y 6 = 30 := by simp [diasDelMes]
    rw [h]; unfold diasDesdeEpoca
    simp only [Nat.reduceAdd, Nat.reduceLeDiff, if_false]; omega
  · have h : diasDelMes y 7 = 31 := by simp [diasDelMes]
    rw [h]; unfold diasDesdeEpoca
    simp only [Nat.reduceAdd, Nat.reduceLeDiff, if_false]; omega
  · have h : diasDelMes y 8 = 31 := by simp [diasDelMes]
    rw [h]; unfold diasDesdeEpoca
    simp only [Nat.reduceAdd, Nat.reduceLeDiff, if_false]; omega
  · have h : diasDelMes y 9 = 30 := by simp [diasDelMes]
    rw [h]; unfold diasDesdeEpoca
    simp only [Nat.reduceAdd, Nat.reduceLeDiff, if_false]; omega
  · have h : diasDelMes y 10 = 31 := by simp [diasDelMes]
    rw [h]; unfold diasDesdeEpoca
    simp only [Nat.reduceAdd, Nat.reduceLeDiff, if_false]; omega
  · have h : diasDelMes y 11 = 30 := by simp [diasDelMes]
    rw [h]; unfold diasDesdeEpoca
    simp only [Nat.reduceAdd, Nat.reduceLeDiff, if_false]; omega

/-- Within a year, day 0 of a later month is not before day 0 of an earlier one. -/
theorem diasDesdeEpoca_mes_creciente (y m : Nat) (h1 : 1 ≤ m) :
    ∀ k : Nat, m + k ≤ 12 → diasDesdeEpoca y m 0 ≤ diasDesdeEpoca y (m + k) 0 := by
  intro k
  induction k with
  | zero => intro _; exact le_refl _
  | succ j ih =>
    intro h
    have hstep := diasDesdeEpoca_mes_siguiente y (m + j) (by omega) (by omega)
    have hprev := ih (by omega)
    have : m + (j + 1) = m + j + 1 := by omega
    rw [this, hstep]
    omega

/-- Within a year, a day of an earlier month comes before any day of a later month. -/
theorem diasDesdeEpoca_mes_menor (y m m2 d d2 : Nat) (h1 : 1 ≤ m) (hmm : m < m2)
    (h12 : m2 ≤ 12) (hd : d ≤ diasDelMes y m) (hd2 : 1 ≤ d2) :
    diasDesdeEpoca y m d < diasDesdeEpoca y m2 d2 := by
  have hstep := diasDesdeEpoca_mes_siguiente y m h1 (by omega)
  have hmono := diasDesdeEpoca_mes_creciente y (m + 1) (by omega) (m2 - (m + 1)) (by omega)
  have hidx : m + 1 + (m2 - (m + 1)) = m2 := by omega
  rw [hidx] at hmono
  rw [diasDesdeEpoca_lineal y m d, diasDesdeEpoca_lineal y m2 d2]
  omega

/-- A day of an earlier year comes before any day of a later year. -/
theorem diasDesdeEpoca_anio_menor (y y2 m m2 d d2 : Nat) (hy : y < y2)
    (hm : 1 ≤ m ∧ m ≤ 12) (hm2 : 1 ≤ m2 ∧ m2 ≤ 12) (hd : d ≤ 31) (hd2 : 1 ≤ d2) :
    diasDesdeEpoca y m d < diasDesdeEpoca y2 m2 d2 := by
  unfold diasDesdeEpoca
  simp only
  split <;> split <;> omega

/-- The day count grows strictly with the calendar date. -/
theorem diasDesdeEpoca_estricto (y m d y2 m2 d2 : Nat)
    (hv : fechaValida y m d = true) (hv2 : fechaValida y2 m2 d2 = true)
    (h : claveFecha y m d < claveFecha y2 m2 d2) :
    diasDesdeEpoca y m d < diasDesdeEpoca y2 m2 d2 := by
  simp only [fechaValida, Bool.and_eq_true, decide_eq_true_eq] at hv hv2
  obtain ⟨⟨⟨hm1, hm12⟩, hd1⟩, hdm⟩ := hv
  obtain ⟨⟨⟨hn1, hn12⟩, he1⟩, hem⟩ := hv2
  have hd31 := diasDelMes_le y m
  have he31 := diasDelMes_le y2 m2
  unfold claveFecha at h
  rcases Nat.lt_trichotomy y y2 with hy | hy | hy
  · exact diasDesdeEpoca_anio_menor y y2 m m2 d d2 hy ⟨hm1, hm12⟩ ⟨hn1, hn12⟩ (by omega) he1
  · subst hy
    rcases Nat.lt_trichotomy m m2 with hm | hm | hm
    · exact diasDesdeEpoca_mes_menor y m m2 d d2 hm1 hm hn12 hdm he1
    · subst hm
      rw [diasDesdeEpoca_lineal y m d, diasDesdeEpoca_lineal y m d2]
      omega
    · omega
  · omega

/-- On valid dates the order of the day counts is the order of the calendar. -/
theorem diasDesdeEpoca_le_iff (y m d y2 m2 d2 : Nat)
    (hv : fechaValida y m d = true) (hv2 : fechaValida y2 m2 d2 = true) :
    diasDesdeEpoca y m d ≤ diasDesdeEpoca y2 m2 d2 ↔
      claveFecha y m d ≤ claveFecha y2 m2 d2 := by
  constructor
  · intro h
    by_contra hc
    have := diasDesdeEpoca_estricto y2 m2 d2 y m d hv2 hv (by omega)
    omega
  · intro h
    rcases Nat.lt_or_eq_of_le h with hlt | heq
    · exact le_of_lt (diasDesdeEpoca_estricto y m d y2 m2 d2 hv hv2 hlt)
    · simp only [fechaValida, Bool.and_eq_true, decide_eq_true_eq] at hv hv2
      have hd31 := diasDelMes_le y m
      have he31 := diasDelMes_le y2 m2
      unfold claveFecha at heq
      have hy : y = y2 := by omega
      have hm : m = m2 := by omega
      have hd : d = d2 := by omega
      subst hy; subst hm; subst hd
      exact le_refl _

/-- On a date-only text of a calendar date, `new Date` of the platform yields
midnight UTC of that day. -/
theorem nuevaFechaIso_leer (s : String) (y m d : Nat) (h : leerFechaIso s = some (y, m, d)) :
    nuevaFechaIso s = { valor := some (diasDesdeEpoca y m d * 86400000) } ∧
    fechaValida y m d = true ∧ s ≠ "" := by
  unfold leerFechaIso at h
  unfold nuevaFechaIso
  split at h
  · rename_i y1 y2 y3 y4 m1 m2 d1 d2 hdata
    have hne : s ≠ "" := by
      intro hs
      rw [hs] at hdata
      simp at hdata
    split at h
    · rename_i yy mm dd hy hm hd
      by_cases hv : fechaValida yy mm dd = true
      · rw [if_pos hv] at h
        simp only [Option.some.injEq, Prod.mk.injEq] at h
        obtain ⟨rfl, rfl, rfl⟩ := h
        refine ⟨?_, hv, hne⟩
        have hv2 := hv
        simp only [fechaValida, Bool.and_eq_true, decide_eq_true_eq] at hv2
        rw [if_pos ⟨hv2.1.1.1, hv2.1.1.2, hv2.1.2, hv2.2⟩]
      · rw [if_neg hv] at h
        cases h
    · cases h
  · cases h

/-- C15: of three requests dated 2024-01-01, 2024-06-15 and 2024-12-31, the range from
2024-03-01 to 2024-09-01 with an empty type filter keeps the request of
2024-06-15 and no other; and for date-only values a request is kept by the
date clauses exactly when its date is at or after the start and at or before
the end, both bounds included. -/
theorem solicitudesFiltradas_rango_fechas (s : Solicitud) (texto inicio fin : String)
    (f i j : Nat × Nat × Nat)
    (hs : s.fechaEnvio = some texto) (hf : leerFechaIso texto = some f)
    (hi : leerFechaIso inicio = some i) (hj : leerFechaIso fin = some j) :
    solicitudesFiltradas plataformaIso listaTresFechas = [solicitudJunio] ∧
    (pasaFiltro plataformaIso inicio fin "" s = true ↔
      (claveFecha i.1 i.2.1 i.2.2 ≤ claveFecha f.1 f.2.1 f.2.2 ∧
       claveFecha f.1 f.2.1 f.2.2 ≤ claveFecha j.1 j.2.1 j.2.2)) ∧
    pasaFiltro plataformaIso texto texto "" s = true := by
  obtain ⟨fy, fm, fd⟩ := f
  obtain ⟨iy, im, id⟩ := i
  obtain ⟨jy, jm, jd⟩ := j
  obtain ⟨hft, hfv, hfne⟩ := nuevaFechaIso_leer texto fy fm fd hf
  obtain ⟨hit, hiv, hine⟩ := nuevaFechaIso_leer inicio iy im id hi
  obtain ⟨hjt, hjv, hjne⟩ := nuevaFechaIso_leer fin jy jm jd hj
  have hgen : ∀ (a b : String) (ay am ad by_ bm bd : Nat),
      nuevaFechaIso a = { valor := some (diasDesdeEpoca ay am ad * 86400000) } → a ≠ "" →
      nuevaFechaIso b = { valor := some (diasDesdeEpoca by_ bm bd * 86400000) } → b ≠ "" →
      (pasaFiltro plataformaIso a b "" s = true ↔
        (diasDesdeEpoca ay am ad ≤ diasDesdeEpoca fy fm fd ∧
         diasDesdeEpoca fy fm fd ≤ diasDesdeEpoca by_ bm bd)) := by
    intro a b ay am ad by_ bm bd ha hane hb hbne
    simp only [pasaFiltro, fechaONull, hs, esVerdadero, plataformaIso, hft, ha, hb,
      Fecha.mayorIgual, Fecha.menorIgual, bne_iff_ne, ne_eq, hfne, hane, hbne,
      not_false_eq_true, if_true, bne_self_eq_false, Bool.not_false, Bool.true_or,
      Bool.and_true, Bool.and_eq_true, decide_eq_true_eq]
    constructor
    · rintro ⟨h1, h2⟩; constructor <;> omega
    · rintro ⟨h1, h2⟩; constructor <;> omega
  refine ⟨by decide, ?_, ?_⟩
  · rw [hgen inicio fin iy im id jy jm jd hit hine hjt hjne,
      diasDesdeEpoca_le_iff _ _ _ _ _ _ hiv hfv, diasDesdeEpoca_le_iff _ _ _ _ _ _ hfv hjv]
  · rw [hgen texto texto fy fm fd fy fm fd hft hfne hft hfne]
    exact ⟨le_refl _, le_refl _⟩

/-- The statement of C15 on the June request and the range of the example. -/
theorem solicitudesFiltradas_rango_fechas_witness :
    (solicitudJunio.fechaEnvio = some "2024-06-15" ∧
      leerFechaIso "2024-06-15" = some (2024, 6, 15) ∧
      leerFechaIso "2024-03-01" = some (2024, 3, 1) ∧
      leerFechaIso "2024-09-01" = some (2024, 9, 1)) ∧
    solicitudesFiltradas plataformaIso listaTresFechas = [solicitudJunio] ∧
    (pasaFiltro plataformaIso "2024-03-01" "2024-09-01" "" solicitudJunio = true ↔
      (claveFecha 2024 3 1 ≤ claveFecha 2024 6 15 ∧
       claveFecha 2024 6 15 ≤ claveFecha 2024 9 1)) :=
  ⟨⟨rfl, by decide, by decide, by decide⟩,
    (solicitudesFiltradas_rango_fechas solicitudJunio "2024-06-15" "2024-03-01" "2024-09-01"
      (2024, 6, 15) (2024, 3, 1) (2024, 9, 1) rfl (by decide) (by decide) (by decide)).1,
    (solicitudesFiltradas_rango_fechas solicitudJunio "2024-06-15" "2024-03-01" "2024-09-01"
      (2024, 6, 15) (2024, 3, 1) (2024, 9, 1) rfl (by decide) (by decide) (by decide)).2.1⟩

end GestionSolicitudes
